import Mathlib

/-!
# Verification of the VICW memory engine (hot-path context manager, offload
# queue, echo guard, retrieval, state tracking, extraction validation)

This file is a shallow embedding, in Lean 4, of the parts of the VICW
source (`app/context_manager.py`, `app/offload_queue.py`, `app/api_server.py`,
`app/qdrant_vector_db.py`, `app/semantic_manager.py`,
`app/neo4j_knowledge_graph.py`, `app/state_extractor.py`,
`app/data_models.py`) that the verified claims are about, together with
theorems settling those claims.

Conventions of the embedding:
* Python dict-shaped chat messages `{"role": r, "content": c}` become the
  `Msg` structure.
* Machine integers are `Nat`/`Int`; Python floating point appears only in
  `_estimate_tokens` (`int(len(text.split()) / 0.75)`), which for word
  counts `w < 2^51` equals `⌊4 * w / 3⌋` exactly (`0.75` is an exact
  double; when `3 ∣ w` the quotient `4w/3` is an exact integer and IEEE
  division is exact on it; otherwise the true quotient has fractional part
  `1/3` or `2/3` and the relative rounding error `2^-53` cannot move it
  across an integer, so truncation agrees with the rational floor).
* `asyncio` code is sequential in effect (every awaited call completes
  before the caller resumes, and the claims concern a single session), so
  `async` methods become pure state-passing functions.
* Fallible operations (`deque.popleft` on an empty deque raises
  `IndexError`; a Python call with an unexpected keyword argument raises
  `TypeError`) return `Except String _`.
* External collaborators (the LLM endpoint, the embedding model, the
  stdlib JSON decoder, the Qdrant client's stored points, the Neo4j graph
  contents) are parameters of the functions that drive them.
-/

/-! ## Messages and token estimation (`app/context_manager.py`, `app/data_models.py`) -/

/-- A chat message `{"role": role, "content": content}` as carried in the
working buffer and in LLM context windows. -/
structure Msg where
  role : String
  content : String
deriving Repr, DecidableEq

/-- Whitespace characters recognised by Python `str.split()` (the ones that
can occur in this system's message strings). -/
def isWs (c : Char) : Bool :=
  c = ' ' || c = '\n' || c = '\t' || c = '\r'

/-- Helper for `countWords`: scans the character list; the flag records
whether the scanner is currently inside a word. -/
def countWordsAux : List Char → Bool → Nat
  | [], _ => 0
  | c :: cs, inWord =>
    if isWs c then countWordsAux cs false
    else (if inWord then 0 else 1) + countWordsAux cs true

/-- `len(text.split())`: the number of maximal runs of non-whitespace
characters. -/
def countWords (s : String) : Nat :=
  countWordsAux s.data false

/-- `ContextManager._estimate_tokens`: `int(len(text.split()) / 0.75)`,
which equals `⌊4w/3⌋` for the word count `w` (see the header comment). -/
def estimateTokens (text : String) : Nat :=
  countWords text * 4 / 3

/-- The string `f"{msg['role']}: {msg['content']}"` used both by
`_token_count` and by chunk-text assembly. -/
def msgText (m : Msg) : String :=
  m.role ++ ": " ++ m.content

/-- `ContextManager._token_count`: sum of the per-message estimates. -/
def tokenCount (ctx : List Msg) : Nat :=
  (ctx.map (fun m => estimateTokens (msgText m))).sum

/-! ## Offload jobs and the offload queue (`app/data_models.py`, `app/offload_queue.py`) -/

/-- `OffloadJob` (the fields the claims touch; `job_id` is the caller's
fresh UUID string, `metadata` is reduced to the `relief_num` entry that
`_relieve_pressure` stores there). -/
structure OffloadJob where
  jobId : String
  chunkText : String
  tokenCount : Nat
  messageCount : Nat
  reliefNum : Nat
deriving Repr, DecidableEq

/-- `OffloadQueue` state: the deque plus `max_size` and the three counters. -/
structure OQState where
  queue : List OffloadJob
  maxSize : Nat
  enqueuedCount : Nat
  processedCount : Nat
  droppedCount : Nat
deriving Repr, DecidableEq

/-- `OffloadQueue.__init__(max_size)`. -/
def OQState.init (maxSize : Nat) : OQState :=
  ⟨[], maxSize, 0, 0, 0⟩

/-- `OffloadQueue.enqueue`: on overflow (`len(queue) >= max_size`) pop the
head (`deque.popleft`, which raises `IndexError` on an empty deque — only
possible when `max_size = 0`) and count a drop; then append and count the
enqueue; returns `True`. -/
def OQState.enqueue (q : OQState) (job : OffloadJob) : Except String (OQState × Bool) :=
  if q.queue.length ≥ q.maxSize then
    match q.queue with
    | [] => .error "IndexError: pop from an empty deque"
    | _ :: rest =>
      .ok ({ q with
              queue := rest ++ [job],
              enqueuedCount := q.enqueuedCount + 1,
              droppedCount := q.droppedCount + 1 }, true)
  else
    .ok ({ q with
            queue := q.queue ++ [job],
            enqueuedCount := q.enqueuedCount + 1 }, true)

/-- `OffloadQueue.dequeue_batch`: pop up to `batch_size` jobs from the
front, counting each as processed; returns the new state and the batch. -/
def OQState.dequeueBatch (q : OQState) (batchSize : Nat) : OQState × List OffloadJob :=
  let k := min batchSize q.queue.length
  ({ q with queue := q.queue.drop k, processedCount := q.processedCount + k },
   q.queue.take k)

/-- `get_stats()["current_size"]`. -/
def OQState.currentSize (q : OQState) : Nat :=
  q.queue.length

/-! ## Context manager (`app/context_manager.py`) -/

/-- Configuration as seen by `ContextManager`: `max_context` together with
the three derived thresholds.  The source recomputes
`int(self.max_context * OFFLOAD_THRESHOLD)` (resp. `TARGET_AFTER_RELIEF`,
`HYSTERESIS_THRESHOLD`) on each call from fixed module-level floats; the
embedding carries the three resulting integers (`T_hi`, `T_tgt`, `T_hy`)
directly.  For the scenario configuration of the claims
(`max_context = 1000`, thresholds `0.8 / 0.5 / 0.7`) the Python values are
exactly `800 / 500 / 700`, as in `scenarioConfig` below. -/
structure CMConfig where
  maxContext : Nat
  pressureThreshold : Nat
  targetTokens : Nat
  hysteresisThreshold : Nat
deriving Repr, DecidableEq

/-- The configuration of spec scenarios S1/S2 (claims C4 and C5):
`max_context=1000`, `OFFLOAD_THRESHOLD=0.8`, `TARGET_AFTER_RELIEF=0.5`,
`HYSTERESIS_THRESHOLD=0.7`. -/
def scenarioConfig : CMConfig :=
  ⟨1000, 800, 500, 700⟩

/-- `ContextManager` mutable state (the fields the claims touch), bundled
with its offload queue. -/
structure CMState where
  cfg : CMConfig
  workingContext : List Msg
  offloadQueue : OQState
  offloadJobCount : Nat
  lastReliefTokens : Nat
deriving Repr, DecidableEq

/-- `ContextManager.__init__`: empty buffer, zero counters
(`last_relief_tokens = 0`). -/
def CMState.init (cfg : CMConfig) (queueMax : Nat) : CMState :=
  ⟨cfg, [], OQState.init queueMax, 0, 0⟩

/-- `ContextManager._create_placeholder_card`. -/
def placeholderCard (jobId : String) (tokens msgs : Nat) : Msg :=
  { role := "system",
    content := "[ARCHIVED mem_id:" ++ jobId ++ " tokens:" ++ toString tokens
      ++ " msgs:" ++ toString msgs ++ "]" }

/-- One pass of the inner scan of `_relieve_pressure`: advance `idx` past
leading `'system'` messages and pop the first non-system message.  Returns
`none` when every message is a system message (the loop's
`idx >= len(working_context)` break). -/
def extractStep : List Msg → Option (Msg × List Msg)
  | [] => none
  | m :: rest =>
    if m.role = "system" then
      (extractStep rest).map (fun p => (p.1, m :: p.2))
    else
      some (m, rest)

theorem extractStep_length {ctx : List Msg} {m : Msg} {ctx' : List Msg}
    (h : extractStep ctx = some (m, ctx')) : ctx'.length + 1 = ctx.length := by
  induction ctx generalizing m ctx' with
  | nil => simp [extractStep] at h
  | cons hd tl ih =>
    simp only [extractStep] at h
    by_cases hr : hd.role = "system"
    · rw [if_pos hr] at h
      cases hstep : extractStep tl with
      | none => rw [hstep] at h; simp at h
      | some p =>
        obtain ⟨m', tl'⟩ := p
        rw [hstep, Option.map_some'] at h
        simp only [Option.some.injEq, Prod.mk.injEq] at h
        obtain ⟨rfl, rfl⟩ := h
        simp [← ih hstep]
    · rw [if_neg hr] at h
      simp only [Option.some.injEq, Prod.mk.injEq] at h
      obtain ⟨rfl, rfl⟩ := h
      rfl

/-- The extraction loop of `_relieve_pressure`:
`while extracted_tokens < tokens_to_extract and len(self.working_context) > 1`,
each iteration removing the first non-system message (or breaking when only
system messages remain).  Returns the remaining buffer, the extracted
messages in extraction order, and the extracted token total.
`tokens_to_extract` is a Python `int`, possibly negative, hence `Int`. -/
def relieveLoop (ctx : List Msg) (extracted : List Msg) (extractedTokens : Nat)
    (tokensToExtract : Int) : List Msg × List Msg × Nat :=
  if (extractedTokens : Int) < tokensToExtract ∧ 1 < ctx.length then
    match h : extractStep ctx with
    | none => (ctx, extracted, extractedTokens)
    | some (m, ctx') =>
      relieveLoop ctx' (extracted ++ [m])
        (extractedTokens + estimateTokens (msgText m)) tokensToExtract
  else
    (ctx, extracted, extractedTokens)
termination_by ctx.length
decreasing_by
  simp only [← extractStep_length h]
  omega

/-- `tokens_to_extract = tokens_before - target_tokens` (a Python `int`,
possibly negative). -/
def tokensToExtract (s : CMState) : Int :=
  (tokenCount s.workingContext : Int) - (s.cfg.targetTokens : Int)

/-- The extraction phase of `_relieve_pressure`: remaining buffer,
extracted messages, extracted token total. -/
def reliefParts (s : CMState) : List Msg × List Msg × Nat :=
  relieveLoop s.workingContext [] 0 (tokensToExtract s)

/-- The `OffloadJob.create(chunk_text=..., token_count=..., message_count=...,
metadata={"relief_num": ...})` value built by `_relieve_pressure`,
with the fresh `job_id = f"job_{uuid.uuid4().hex}"` as a parameter. -/
def mkReliefJob (jobId : String) (s : CMState) : OffloadJob :=
  { jobId := jobId,
    chunkText := String.intercalate "\n" ((reliefParts s).2.1.map msgText),
    tokenCount := (reliefParts s).2.2,
    messageCount := (reliefParts s).2.1.length,
    reliefNum := s.offloadJobCount + 1 }

/-- `ContextManager._relieve_pressure`, parameterised by the fresh
`job_id`.  Errors propagate from `offload_queue.enqueue` (possible only
with `max_size = 0`). -/
def relievePressure (jobId : String) (s : CMState) : Except String CMState := do
  let (ctx', extracted, extractedTokens) := reliefParts s
  let job := mkReliefJob jobId s
  let (queue', _) ← s.offloadQueue.enqueue job
  let placeholder := placeholderCard jobId extractedTokens extracted.length
  let ctx'' := placeholder :: ctx'          -- `working_context.insert(0, placeholder)`
  let tokensAfter := tokenCount ctx''
  return { s with
            workingContext := ctx'',
            offloadQueue := queue',
            offloadJobCount := s.offloadJobCount + 1,
            lastReliefTokens := tokensAfter }

/-- The trigger decision of `ContextManager.add_message` applied to the
token count of the buffer after the append:
`current > pressure_threshold and (last_relief_tokens == 0 or current > hysteresis_threshold)`. -/
def reliefTriggered (s : CMState) (currentTokens : Nat) : Bool :=
  currentTokens > s.cfg.pressureThreshold &&
    (s.lastReliefTokens == 0 || currentTokens > s.cfg.hysteresisThreshold)

/-- `ContextManager.add_message`: append, then relieve when the trigger
condition holds.  The returned flag records whether relief was invoked. -/
def addMessage (jobId : String) (s : CMState) (role content : String) :
    Except String (CMState × Bool) :=
  let s1 := { s with workingContext := s.workingContext ++ [⟨role, content⟩] }
  let currentTokens := tokenCount s1.workingContext
  if reliefTriggered s currentTokens then
    (relievePressure jobId s1).map (fun s2 => (s2, true))
  else
    .ok (s1, false)

/-! ## Echo guard (`app/api_server.py`, `chat` endpoint, lines 321-477) -/

/-- Python `str.strip()` restricted to the whitespace characters of `isWs`. -/
def pyStrip (s : String) : String :=
  String.mk (((s.data.dropWhile (fun c => isWs c)).reverse.dropWhile
    (fun c => isWs c)).reverse)

/-- Python `needle in hay` on strings (substring containment). -/
def containsSub (hay needle : String) : Bool :=
  decide (needle.data <:+: hay.data)

/-- `current_response[:200]`. -/
def take200 (s : String) : String :=
  String.mk (s.data.take 200)

/-- The system overlay appended after an empty response. -/
def emptyWarning : Msg :=
  { role := "system",
    content := "⚠️ ERROR: You generated an empty response.\n\nYou MUST provide a substantive response. Options:\n1. Answer the user's question with available information\n2. State clearly: 'I don't have enough information to answer this'\n3. Ask for clarification if the request is unclear\n\nEmpty responses are not acceptable. Respond now with actual content." }

/-- The canned error string returned when every attempt was empty. -/
def emptyErrorText : String :=
  "[ERROR] The LLM failed to generate a response after multiple attempts. Please rephrase your question or try again."

/-- First-retry overlay (polite warning with 200-char preview). -/
def echoWarning1 (resp : String) : String :=
  "⚠️ ECHO DETECTED: Your previous response was nearly identical to recent history.\n\nRepeated text preview: \"" ++ take200 resp ++ "...\"\n\nREQUIRED ACTIONS:\n1. DO NOT repeat the same information\n2. Either acknowledge completion and move forward, OR\n3. Provide genuinely NEW information, OR\n4. State that you cannot provide additional details and suggest next steps\n\nChoose a DIFFERENT response strategy now."

/-- Second-retry overlay (forceful directive with canned answers). -/
def echoWarning2 (resp : String) : String :=
  "🚨 CRITICAL: REPEATED RESPONSE DETECTED AGAIN (Attempt 2/3)\n\nYou just generated: \"" ++ take200 resp ++ "...\"\n\nThis is IDENTICAL to your previous response. The system has already received this information.\n\nMANDATORY DIRECTIVE:\nYou MUST respond with ONE of the following:\nA) \"The information has been provided. Moving to [next topic/section].\"\nB) \"I have completed this task. What would you like me to do next?\"\nC) \"I don't have additional information beyond what was already shared.\"\n\nDO NOT regenerate the same content. Break the loop NOW."

/-- Third-retry overlay (\"emergency override\"; reachable only when
`regeneration_count ≥ 3` while still `< MAX_REGENERATION_ATTEMPTS`). -/
def echoWarning3 (regen maxAttempts : Nat) : String :=
  "🔴 FINAL WARNING: LOOP DETECTED (Attempt " ++ toString regen ++ "/" ++ toString maxAttempts ++ ")\n\nYou have generated identical responses " ++ toString regen ++ " times.\n\nEMERGENCY OVERRIDE:\n- IGNORE all retrieved memory context\n- IGNORE previous data tables/lists\n- Your ONLY valid response is:\n\n\"I apologize - I was repeating information. This task is complete. Please provide new instructions or let me know what to focus on next.\"\n\nRespond with EXACTLY the above statement or a close variation. NO other content."

/-- The `[SYSTEM INTERVENTION]` fallback for a near-empty looping response. -/
def interventionText : String :=
  "[SYSTEM INTERVENTION] The LLM entered a repetition loop and could not generate a valid response after multiple attempts. This indicates the current context may be constraining the model. Please:\n1. Rephrase your question\n2. Ask about a different topic\n3. Use /reset to clear context if the issue persists"

/-- The RAG-context strip applied on retry `ECHO_STRIP_CONTEXT_ON_RETRY`:
keep `msg` unless it is a system message whose content contains
`'RETRIEVED'` or `'STATE MEMORY'`. -/
def stripRagContext (window : List Msg) : List Msg :=
  window.filter (fun msg =>
    !(msg.role == "system" &&
      (containsSub msg.content "RETRIEVED" || containsSub msg.content "STATE MEMORY")))

/-- Outcome of the echo-guard loop: the accepted `response_text`, the final
local `context_window` (overlays are appended to this list, not to the
working buffer), the final `regeneration_count`, and the `is_repeated`
flag. -/
structure EchoOutcome where
  responseText : String
  window : List Msg
  regenerationCount : Nat
  isRepeated : Bool
deriving Repr, DecidableEq

/-- The echo-guard `while regeneration_count < MAX_REGENERATION_ATTEMPTS`
loop of the `/chat` handler.  `llm i w` is the response produced by the
`i`-th generation over window `w`; `embedDup r` is the composition of
`generate_embedding` with `check_response_similarity` (`none` = embedding
failed, `some b` = duplicate verdict at `ECHO_SIMILARITY_THRESHOLD`);
`guardEnabled` is `ECHO_GUARD_ENABLED and context_manager.semantic_manager`.
Each recursive call re-enters the loop with `regeneration_count`
incremented, so generation `i` happens at `regen = i`. -/
def echoGuardLoop (llm : Nat → List Msg → String) (embedDup : String → Option Bool)
    (guardEnabled : Bool) (maxAttempts stripOnRetry : Nat)
    (window : List Msg) (regen : Nat) : EchoOutcome :=
  if h : regen < maxAttempts then
    let resp := llm regen window
    if (pyStrip resp).data.isEmpty then
      -- `not current_response or not current_response.strip()`
      let regen' := regen + 1
      if regen' < maxAttempts then
        echoGuardLoop llm embedDup guardEnabled maxAttempts stripOnRetry
          (window ++ [emptyWarning]) regen'
      else
        ⟨emptyErrorText, window, regen', false⟩
    else if guardEnabled then
      match embedDup resp with
      | none => ⟨resp, window, regen, false⟩        -- embedding failed: accept
      | some false => ⟨resp, window, regen, false⟩  -- not a duplicate: accept
      | some true =>
        let regen' := regen + 1
        if regen' < maxAttempts then
          let warningContent :=
            if regen' = 1 then echoWarning1 resp
            else if regen' = 2 then echoWarning2 resp
            else echoWarning3 regen' maxAttempts
          let window' :=
            if regen' ≥ stripOnRetry then stripRagContext window else window
          echoGuardLoop llm embedDup guardEnabled maxAttempts stripOnRetry
            (window' ++ [⟨"system", warningContent⟩]) regen'
        else
          if (pyStrip resp).data.length < 10 then
            ⟨interventionText, window, regen', false⟩
          else
            ⟨"[REPEATED] " ++ resp, window, regen', true⟩
    else
      ⟨resp, window, regen, false⟩                   -- echo guard disabled: accept
  else
    -- loop never entered (only with `MAX_REGENERATION_ATTEMPTS = 0`);
    -- `response_text` stays `None`, modelled as the empty string
    ⟨"", window, regen, false⟩
termination_by maxAttempts - regen
decreasing_by all_goals omega

/-! ## Vector search and retrieval (`app/qdrant_vector_db.py`,
`app/semantic_manager.py`) -/

/-- A point returned by the external Qdrant client for a query: its id,
cosine score, and the payload fields the retrieval path reads.  Scores are
modelled as rationals. -/
structure VecPoint where
  pointId : String
  score : ℚ
  jobIdPayload : Option String   -- payload["_job_id"]
  nodeId : Option String         -- payload["node_id"]
  chunkTextCompressed : Option String
  summary : Option String
deriving Repr, DecidableEq

/-- A result dict produced by `QdrantVectorDB.search`. -/
structure SearchResult where
  jobId : String
  nodeId : Option String
  score : ℚ
  payload : VecPoint
deriving Repr, DecidableEq

/-- The body of `QdrantVectorDB.search` applied to the hits the external
client returned (the client receives `limit=top_k` and the filter; the
adapter itself performs **no score comparison** of any kind — note the
absence of any score processing below). -/
def qdrantSearchBody (clientHits : List VecPoint) : List SearchResult :=
  clientHits.map (fun hit =>
    { jobId := hit.jobIdPayload.getD hit.pointId,
      nodeId := hit.nodeId,
      score := hit.score,
      payload := hit })

/-- The keyword parameters accepted by `QdrantVectorDB.search`
(`async def search(self, query_vector, top_k=3, filter_dict=None)`). -/
def searchParamNames : List String :=
  ["query_vector", "top_k", "filter_dict"]

/-- The keyword arguments `SemanticManager.retrieve_metaphysical_context`
passes to `qdrant_db.search` (besides the positional `query_embedding`):
`top_k=top_k, filter_dict=filter_dict, score_threshold=RAG_SCORE_THRESHOLD`. -/
def retrieveSearchKwargNames : List String :=
  ["top_k", "filter_dict", "score_threshold"]

/-- The attribute names `QdrantVectorDB` defines
(`qdrant_vector_db.py`: methods plus the `__init__`-assigned fields). -/
def qdrantVectorDBAttrNames : List String :=
  ["host", "port", "collection_name", "dimension", "client",
   "init", "_init_client", "_create_collection", "upsert_vector", "search",
   "create_filter", "get_vector", "delete_vector", "get_collection_info",
   "shutdown"]

/-- Python call semantics: a keyword argument whose name is not among the
callee's parameters raises `TypeError`. -/
def callKwargsOk (params kwargs : List String) : Bool :=
  kwargs.all (fun k => params.contains k)

/-- The call `self.qdrant_db.search(query_embedding, top_k=top_k,
filter_dict=filter_dict, score_threshold=RAG_SCORE_THRESHOLD)` as executed
by Python: binding the keyword arguments against `search`'s parameter list
before any of the body runs. -/
def searchCallFromRetrieve (clientHits : List VecPoint) :
    Except String (List SearchResult) :=
  if callKwargsOk searchParamNames retrieveSearchKwargNames then
    .ok (qdrantSearchBody clientHits)
  else
    .error "TypeError: search() got an unexpected keyword argument 'score_threshold'"

/-- `RAGResult` (`app/data_models.py`). -/
structure RAGResult where
  semanticChunks : List String
  relationalFacts : List String
deriving Repr, DecidableEq

/-- One item of `Neo4jKnowledgeGraph.expand_metaphysical_context`'s result:
`item['node']` fields plus the formatted relationship lines. -/
structure ExpandedItem where
  nodeType : String
  name : String
  description : String
  relationships : List String
deriving Repr, DecidableEq

/-- Chunk-content recovery inside the result loop of
`retrieve_metaphysical_context`: prefer decompressed
`chunk_text_compressed` (decompression by the external `zstd` library,
`none` = it raised and the `except` branch runs), fall back to `summary`. -/
def chunkOfResult (decompress : String → Option String) (r : SearchResult) :
    List String :=
  match r.payload.chunkTextCompressed with
  | some c =>
    match decompress c with
    | some text => [text]
    | none => match r.payload.summary with
              | some s => [s]
              | none => []
  | none =>
    match r.payload.summary with
    | some s => [s]
    | none => []

/-- `SemanticManager.retrieve_metaphysical_context`.  External effects are
parameters: `intent` is the outcome of `_analyze_intent_robust` (an
LLM/keyword classification), `clientHits` is what the Qdrant client would
return for the query, `decompress` is the `zstd` decompressor, and
`expandOracle` is the Neo4j read `expand_metaphysical_context`.  The filter
construction for a non-general intent accesses
`self.qdrant_db.create_domain_filter`, an attribute `QdrantVectorDB` does
not define (Python raises `AttributeError`); the search call then passes
`score_threshold=`, a keyword `search` does not accept. -/
def retrieveMetaphysicalContext (intent : String) (clientHits : List VecPoint)
    (decompress : String → Option String)
    (expandOracle : List String → List ExpandedItem) :
    Except String RAGResult := do
  -- 2. Vector Filter Scan: build the domain filter
  if intent ≠ "general" then
    if !(qdrantVectorDBAttrNames.contains "create_domain_filter") then
      throw "AttributeError: 'QdrantVectorDB' object has no attribute 'create_domain_filter'"
  -- Search with score threshold (keyword binding happens first)
  let searchResults ← searchCallFromRetrieve clientHits
  -- Extract node UIDs and semantic chunks
  let nodeUids := searchResults.filterMap (fun r => r.nodeId)
  let semanticChunks := searchResults.flatMap (chunkOfResult decompress)
  -- 3. Graph expansion (skipped when no node UIDs)
  let expandedContext := if nodeUids.isEmpty then [] else expandOracle nodeUids
  -- 4. Synthesis
  let relationalFacts := expandedContext.flatMap (fun item =>
    ("[" ++ item.nodeType ++ ": " ++ item.name ++ "] " ++ item.description)
      :: item.relationships.map (fun rel => "  - " ++ rel))
  return { semanticChunks := semanticChunks, relationalFacts := relationalFacts }

/-! ## State tracking (`app/neo4j_knowledge_graph.py`,
`app/context_manager.py::_build_state_message`) -/

/-- A `State` node as stored in the graph (`app/data_models.py::State`):
`{id, type, desc, status, created, updated, visit_count, last_visited}`.
`created`/`updated` are `int(time)` seconds; `last_visited` is a
`time.time()` float, modelled as a rational. -/
structure StateRec where
  id : String
  stype : String
  desc : String
  status : String
  created : Int
  updated : Int
  visitCount : Nat
  lastVisited : ℚ
deriving Repr, DecidableEq

/-- The graph's `State` nodes (uniqueness of `id` is a DB constraint, not
assumed by the operations below). -/
def GraphState := List StateRec
deriving Repr, DecidableEq

/-- `Neo4jKnowledgeGraph.increment_state_visits`: empty input returns 0;
otherwise `UNWIND $state_ids AS state_id MATCH (s:State {id: state_id})
SET s.visit_count = COALESCE(s.visit_count, 0) + 1, s.last_visited = $timestamp
RETURN count(s)` — one increment per matched row, `last_visited` stamped
with the call's `time.time()`. -/
def incrementStateVisits (stateIds : List String) (ts : ℚ) (g : GraphState) :
    GraphState × Nat :=
  if stateIds.isEmpty then (g, 0)
  else
    stateIds.foldl (fun (acc : GraphState × Nat) sid =>
      ((acc.1.map (fun s =>
          if s.id = sid then
            { s with visitCount := s.visitCount + 1, lastVisited := ts }
          else s)),
       acc.2 + (acc.1.filter (fun s => s.id = sid)).length))
      (g, 0)

/-- `Neo4jKnowledgeGraph.update_state_status`:
`MATCH (s:State {id: $state_id}) SET s.status = $new_status,
s.updated = $updated, s.visit_count = 0, s.last_visited = 0.0 RETURN s` —
resets the visit counters on **every** status update, whatever the new
status. -/
def updateStateStatus (stateId newStatus : String) (ts : Int) (g : GraphState) :
    GraphState × Bool :=
  ((g.map (fun s =>
      if s.id = stateId then
        { s with status := newStatus, updated := ts, visitCount := 0,
                 lastVisited := 0 }
      else s)),
   g.any (fun s => s.id = stateId))

/-- An interleaving step over the two state operations of claim C8. -/
inductive StateOp where
  | incr (stateIds : List String) (ts : ℚ)
  | upd (stateId : String) (newStatus : String) (ts : Int)
deriving Repr, DecidableEq

/-- Apply one state operation (discarding the returned count/flag). -/
def applyStateOp (op : StateOp) (g : GraphState) : GraphState :=
  match op with
  | .incr ids ts => (incrementStateVisits ids ts g).1
  | .upd sid st ts => (updateStateStatus sid st ts g).1

/-- Run a sequence of state operations left to right. -/
def runStateOps (ops : List StateOp) (g : GraphState) : GraphState :=
  ops.foldl (fun acc op => applyStateOp op acc) g

/-- Read a state's `visit_count` (0 when the id is absent). -/
def visitCountOf (g : GraphState) (sid : String) : Nat :=
  match g.find? (fun s => s.id = sid) with
  | some s => s.visitCount
  | none => 0

/-- Read a state's `status` (empty when the id is absent). -/
def statusOf (g : GraphState) (sid : String) : String :=
  match g.find? (fun s => s.id = sid) with
  | some s => s.status
  | none => ""

/-- Read a state's `last_visited` (0 when the id is absent). -/
def lastVisitedOf (g : GraphState) (sid : String) : ℚ :=
  match g.find? (fun s => s.id = sid) with
  | some s => s.lastVisited
  | none => 0

/-- Insert into a list sorted descending by `key` (used to model Cypher
`ORDER BY … DESC`; ties keep store order, which Cypher leaves
unspecified). -/
def insertDescBy (key : StateRec → Int) (x : StateRec) : List StateRec → List StateRec
  | [] => [x]
  | y :: ys => if key y < key x then x :: y :: ys else y :: insertDescBy key x ys

/-- Sort descending by `key` (insertion sort). -/
def sortDescBy (key : StateRec → Int) : List StateRec → List StateRec
  | [] => []
  | x :: xs => insertDescBy key x (sortDescBy key xs)

/-- `Neo4jKnowledgeGraph.get_active_states`:
`MATCH (s:State {type: $type, status: 'active'}) RETURN s
ORDER BY s.created DESC LIMIT $limit`. -/
def getActiveStates (stype : String) (lim : Nat) (g : GraphState) : List StateRec :=
  (sortDescBy (fun s => s.created)
    (g.filter (fun s => s.stype = stype && s.status = "active"))).take lim

/-- `Neo4jKnowledgeGraph.get_completed_states`:
`MATCH (s:State {type: $type, status: 'completed'}) RETURN s
ORDER BY s.updated DESC LIMIT $limit`. -/
def getCompletedStates (stype : String) (lim : Nat) (g : GraphState) : List StateRec :=
  (sortDescBy (fun s => s.updated)
    (g.filter (fun s => s.stype = stype && s.status = "completed"))).take lim

/-- `STATE_INJECTION_LIMITS` (`app/config.py`), in dict insertion order. -/
def stateInjectionLimits : List (String × Nat) :=
  [("goal", 2), ("task", 3), ("decision", 2), ("fact", 3)]

/-- The per-type label of `_build_state_message` (the generic
`state_type.capitalize() + "s"` default is dead for the four configured
types but kept; `capitalize` is Python's first-upper-rest-lower). -/
def stateTypeLabel (stype : String) : String :=
  if stype = "goal" then "Active Goals"
  else if stype = "task" then "Active Tasks"
  else if stype = "decision" then "Decisions"
  else if stype = "fact" then "Known Facts"
  else
    (match stype.data with
     | [] => ""
     | c :: cs => String.mk (c.toUpper :: cs.map Char.toLower)) ++ "s"

/-- `ContextManager._build_state_message` as written in the source: reads
active states per configured type, then recently completed goals/tasks,
joins descriptions, and appends the soft prevention note.  Its only effect
on the graph is the reads — the function **performs no write** (no call to
`increment_state_visits`) and consults no visit counter, so the graph is
returned unchanged alongside the optional message. -/
def buildStateMessage (g : GraphState) : Option Msg × GraphState :=
  let perType := stateInjectionLimits.filterMap (fun p =>
    let activeStates := getActiveStates p.1 p.2 g
    if activeStates.isEmpty then none
    else some (stateTypeLabel p.1 ++ ": " ++
                String.intercalate ", " (activeStates.map (fun s => s.desc)),
               activeStates.length))
  let completedItems :=
    (getCompletedStates "goal" 2 g).map (fun s => s.desc) ++
    (getCompletedStates "task" 2 g).map (fun s => s.desc)
  let completedParts :=
    if completedItems.isEmpty then []
    else ["Completed: " ++ String.intercalate ", " completedItems]
  let totalStates := (perType.map (fun q => q.2)).sum + completedItems.length
  let contentParts := ["[STATE MEMORY]"] ++ perType.map (fun q => q.1) ++
    completedParts
  if totalStates > 0 then
    (some { role := "system",
            content := String.intercalate "\n" (contentParts ++
              ["", "Note: Avoid repeating completed actions or contradicting known facts.",
               "[END STATE MEMORY]"]) }, g)
  else
    (none, g)

/-! ## Extraction parsing and validation (`app/state_extractor.py`) -/

/-- JSON values as produced by the stdlib decoder.  Numbers are modelled as
integers (the validation semantics the claims concern never inspects the
numeric type). -/
inductive Json where
  | null : Json
  | bool (b : Bool) : Json
  | num (n : Int) : Json
  | str (s : String) : Json
  | arr (xs : List Json) : Json
  | obj (kvs : List (String × Json)) : Json

mutual

/-- Python `repr` of a decoded JSON value (used by `str()` on containers). -/
def pyRepr : Json → String
  | .null => "None"
  | .bool true => "True"
  | .bool false => "False"
  | .num n => toString n
  | .str s => "'" ++ s ++ "'"
  | .arr xs => "[" ++ String.intercalate ", " (pyReprList xs) ++ "]"
  | .obj kvs => "\x7b" ++ String.intercalate ", " (pyReprPairs kvs) ++ "\x7d"

/-- `repr` over the elements of a list value. -/
def pyReprList : List Json → List String
  | [] => []
  | j :: js => pyRepr j :: pyReprList js

/-- `repr` over the pairs of an object value. -/
def pyReprPairs : List (String × Json) → List String
  | [] => []
  | (k, v) :: kvs => ("'" ++ k ++ "': " ++ pyRepr v) :: pyReprPairs kvs

end

/-- Python `str()` of a decoded JSON value (`str` of a `str` is itself;
everything else renders like `repr`). -/
def pyStr : Json → String
  | .str s => s
  | j => pyRepr j

/-- Dict key membership (`"name" in entity`). -/
def objHasKey (kvs : List (String × Json)) (k : String) : Bool :=
  kvs.any (fun p => p.1 = k)

/-- Dict read (`entity["name"]`); only used under an `objHasKey` guard, the
`.null` default is never the result of a guarded read on a
duplicate-key-free dict. -/
def objGet (kvs : List (String × Json)) (k : String) : Json :=
  ((kvs.find? (fun p => p.1 = k)).map Prod.snd).getD .null

/-- Dict assignment (`entity["name"] = v`); decoded dicts are
duplicate-key free. -/
def objSet (kvs : List (String × Json)) (k : String) (v : Json) :
    List (String × Json) :=
  if objHasKey kvs k then
    kvs.map (fun p => if p.1 = k then (k, v) else p)
  else
    kvs ++ [(k, v)]

/-- `dict.setdefault(k, v)`. -/
def objSetdefault (kvs : List (String × Json)) (k : String) (v : Json) :
    List (String × Json) :=
  if objHasKey kvs k then kvs else kvs ++ [(k, v)]

/-- Stage 1 of the entity normalisation: `entity.setdefault("subtype", "Entity")`. -/
def entNorm1 (kvs : List (String × Json)) : List (String × Json) :=
  objSetdefault kvs "subtype" (.str "Entity")

/-- Stage 2: `entity.setdefault("description", "")`. -/
def entNorm2 (kvs : List (String × Json)) : List (String × Json) :=
  objSetdefault (entNorm1 kvs) "description" (.str "")

/-- Stage 3: `entity["name"] = str(entity["name"])`. -/
def entNorm3 (kvs : List (String × Json)) : List (String × Json) :=
  objSet (entNorm2 kvs) "name" (.str (pyStr (objGet (entNorm2 kvs) "name")))

/-- Stage 4: `entity["subtype"] = str(entity["subtype"])`. -/
def entNorm4 (kvs : List (String × Json)) : List (String × Json) :=
  objSet (entNorm3 kvs) "subtype" (.str (pyStr (objGet (entNorm3 kvs) "subtype")))

/-- Stage 5: `entity["description"] = str(entity["description"])`. -/
def entNorm (kvs : List (String × Json)) : List (String × Json) :=
  objSet (entNorm4 kvs) "description" (.str (pyStr (objGet (entNorm4 kvs) "description")))

/-- The per-entity branch of `_validate_extraction`: keep the item iff it
is a dict containing `"name"`; default `subtype`/`description`, then
coerce the three fields with `str()`. -/
def validEntity : Json → Option Json
  | .obj kvs => if objHasKey kvs "name" then some (.obj (entNorm kvs)) else none
  | _ => none

/-- Stage 1 of the event normalisation: `event.setdefault("subtype", "Event")`. -/
def evNorm1 (kvs : List (String × Json)) : List (String × Json) :=
  objSetdefault kvs "subtype" (.str "Event")

/-- Stage 2: `event.setdefault("description", "")`. -/
def evNorm2 (kvs : List (String × Json)) : List (String × Json) :=
  objSetdefault (evNorm1 kvs) "description" (.str "")

/-- Stage 3: `event.setdefault("caused_by", [])`. -/
def evNorm3 (kvs : List (String × Json)) : List (String × Json) :=
  objSetdefault (evNorm2 kvs) "caused_by" (.arr [])

/-- Stage 4: `event.setdefault("next_event", None)`. -/
def evNorm4 (kvs : List (String × Json)) : List (String × Json) :=
  objSetdefault (evNorm3 kvs) "next_event" .null

/-- Stage 5: `event["name"] = str(event["name"])`. -/
def evNorm5 (kvs : List (String × Json)) : List (String × Json) :=
  objSet (evNorm4 kvs) "name" (.str (pyStr (objGet (evNorm4 kvs) "name")))

/-- Stage 6: `event["subtype"] = str(event["subtype"])`. -/
def evNorm6 (kvs : List (String × Json)) : List (String × Json) :=
  objSet (evNorm5 kvs) "subtype" (.str (pyStr (objGet (evNorm5 kvs) "subtype")))

/-- Stage 7: `event["description"] = str(event["description"])`. -/
def evNorm7 (kvs : List (String × Json)) : List (String × Json) :=
  objSet (evNorm6 kvs) "description" (.str (pyStr (objGet (evNorm6 kvs) "description")))

/-- Stage 8: `if not isinstance(event["caused_by"], list): event["caused_by"] = []`. -/
def evNorm (kvs : List (String × Json)) : List (String × Json) :=
  match objGet (evNorm7 kvs) "caused_by" with
  | .arr _ => evNorm7 kvs
  | _ => objSet (evNorm7 kvs) "caused_by" (.arr [])

/-- The per-event branch of `_validate_extraction`: as for entities, with
`subtype` defaulting to `"Event"`, `caused_by` defaulting to `[]` and
forced back to `[]` when not a list, and `next_event` defaulting to
`None`. -/
def validEvent : Json → Option Json
  | .obj kvs => if objHasKey kvs "name" then some (.obj (evNorm kvs)) else none
  | _ => none

/-- Python iteration over the value found at `data.get("entities", [])`:
lists yield their items, strings their characters, dicts their keys;
other values raise `TypeError`. -/
def pyIterItems : Json → Except String (List Json)
  | .arr xs => .ok xs
  | .str s => .ok (s.data.map (fun c => .str (String.mk [c])))
  | .obj kvs => .ok (kvs.map (fun p => .str p.1))
  | _ => .error "TypeError: object is not iterable"

/-- `StateExtractor._validate_extraction`.  A non-dict argument fails on
the key-membership / item-assignment protocol (`TypeError` or
`AttributeError` depending on the value; collapsed to one error). -/
def validateExtraction (d : Json) : Except String Json :=
  match d with
  | .obj kvs =>
    let kvsA := if objHasKey kvs "entities" then kvs else kvs ++ [("entities", .arr [])]
    let kvsB := if objHasKey kvsA "events" then kvsA else kvsA ++ [("events", .arr [])]
    match pyIterItems (objGet kvsB "entities") with
    | .error e => .error e
    | .ok es =>
      let kvsC := objSet kvsB "entities" (.arr (es.filterMap validEntity))
      match pyIterItems (objGet kvsC "events") with
      | .error e => .error e
      | .ok evs => .ok (.obj (objSet kvsC "events" (.arr (evs.filterMap validEvent))))
  | _ => .error "TypeError: extraction result is not a dict"

/-- The empty extraction `{"entities": [], "events": []}`. -/
def emptyExtraction : Json :=
  Json.obj [("entities", .arr []), ("events", .arr [])]

/-- Python `str.lower()` (ASCII suffices for the scanned markers). -/
def pyLower (s : String) : String :=
  String.mk (s.data.map Char.toLower)

/-- `response.startswith(p)`. -/
def pyStartsWith (s p : String) : Bool :=
  p.data.isPrefixOf s.data

/-- Strategy 3 of `_parse_json_response`:
`re.search(r'\x7b.*\x7d', response, re.DOTALL)` — the greedy match runs
from the first opening brace to the last closing brace at or after it. -/
def braceSpan (s : String) : Option String :=
  match s.data.findIdx? (fun c => c = '\x7b') with
  | none => none
  | some i =>
    let rest := s.data.drop i
    match rest.reverse.findIdx? (fun c => c = '\x7d') with
    | none => none
    | some k => some (String.mk (rest.take (rest.length - k)))

/-- `StateExtractor._parse_json_response`, parameterised by the stdlib
decoder `jsonLoads` (`none` = `json.JSONDecodeError`) and by the
strategy-2 fence cleaner (the two `re.sub` calls stripping the opening
```` ```/```json ```` markers and the closing ```` ``` ````, applied only
when the response contains ```` ``` ````; the `re` engine is stdlib,
treated as external like `json`).  Strategies 4 and 5 differ only in
logging: both return the empty extraction. -/
def parseJsonResponse (jsonLoads : String → Option Json)
    (cleanFences : String → String) (response : String) : Json :=
  let resp := pyStrip response
  match jsonLoads resp with
  | some j => j
  | none =>
    let s2 := if containsSub resp "```" then jsonLoads (pyStrip (cleanFences resp))
              else none
    match s2 with
    | some j => j
    | none =>
      let s3 := match braceSpan resp with
                | some sub => jsonLoads sub
                | none => none
      match s3 with
      | some j => j
      | none =>
        if pyStartsWith resp "#" || pyStartsWith resp "**" ||
            containsSub (pyLower (String.mk (resp.data.take 100))) "analysis" then
          emptyExtraction   -- Strategy 4: markdown/analysis detected
        else
          emptyExtraction   -- Strategy 5: last resort

/-! ## Word-count and token lemmas -/

theorem countWordsAux_nonws_append (l1 l2 : List Char)
    (h : ∀ c ∈ l1, isWs c = false) :
    countWordsAux (l1 ++ l2) true = countWordsAux l2 true ∧
    (l1 ≠ [] → countWordsAux (l1 ++ l2) false = 1 + countWordsAux l2 true) := by
  induction l1 with
  | nil => simp [countWordsAux]
  | cons c cs ih =>
    have hc : isWs c = false := h c (by simp)
    have ih' := ih (fun d hd => h d (by simp [hd]))
    refine ⟨?_, fun _ => ?_⟩
    · simp [countWordsAux, hc, ih'.1]
    · simp [countWordsAux, hc, ih'.1]

theorem countWordsAux_pos {l : List Char} {c : Char} (hc : c ∈ l)
    (hnw : isWs c = false) : 1 ≤ countWordsAux l false := by
  induction l with
  | nil => simp at hc
  | cons d ds ih =>
    by_cases hd : isWs d
    · have hcd : c ∈ ds := by
        rcases hc with _ | h
        · rw [hnw] at hd; exact absurd hd (by simp)
        · assumption
      simpa [countWordsAux, hd] using ih hcd
    · simp [countWordsAux, hd]

/-- Character list of `n` single-character words separated by single
spaces (scenario message contents). -/
def wchars : Nat → List Char
  | 0 => []
  | n + 1 => if n = 0 then ['w'] else 'w' :: ' ' :: wchars n

/-- A content string with exactly `n` words. -/
def mkWords (n : Nat) : String := String.mk (wchars n)

theorem countWordsAux_wchars (n : Nat) : countWordsAux (wchars n) false = n := by
  induction n with
  | zero => simp [wchars, countWordsAux]
  | succ n ih =>
    by_cases hn : n = 0
    · subst hn
      simp [wchars, countWordsAux, isWs]
    · rw [wchars, if_neg hn]
      simp [countWordsAux, isWs, ih]
      omega

theorem msgText_data (m : Msg) :
    (msgText m).data = m.role.data ++ ':' :: ' ' :: m.content.data := by
  simp [msgText, String.data_append]

theorem countWords_msgText (role : String) (n : Nat)
    (hrole : ∀ c ∈ role.data, isWs c = false) :
    countWords (msgText ⟨role, mkWords n⟩) = n + 1 := by
  rw [countWords, msgText_data]
  show countWordsAux (role.data ++ ':' :: ' ' :: (mkWords n).data) false = n + 1
  have hassoc : role.data ++ ':' :: ' ' :: (mkWords n).data
      = (role.data ++ [':']) ++ (' ' :: (mkWords n).data) := by
    simp
  rw [hassoc]
  have hl1 : ∀ c ∈ role.data ++ [':'], isWs c = false := by
    intro c hc
    rcases List.mem_append.mp hc with h | h
    · exact hrole c h
    · simp at h
      subst h
      decide
  have := (countWordsAux_nonws_append (role.data ++ [':'])
    (' ' :: (mkWords n).data) hl1).2 (by simp)
  rw [this]
  have hsp : countWordsAux (' ' :: (mkWords n).data) true
      = countWordsAux (mkWords n).data false := by
    simp [countWordsAux, isWs]
  rw [hsp]
  show 1 + countWordsAux (wchars n) false = n + 1
  rw [countWordsAux_wchars]
  omega

/-- A scenario message whose `_estimate_tokens` value is `4*(n+1)/3` for a
whitespace-free role. -/
def mkMsg (role : String) (n : Nat) : Msg := ⟨role, mkWords n⟩

theorem estimateTokens_mkMsg (role : String) (n : Nat)
    (hrole : ∀ c ∈ role.data, isWs c = false) :
    estimateTokens (msgText (mkMsg role n)) = (n + 1) * 4 / 3 := by
  rw [estimateTokens, mkMsg, countWords_msgText role n hrole]

theorem countWords_msgText_pos (m : Msg) : 1 ≤ countWords (msgText m) := by
  rw [countWords, msgText_data]
  exact countWordsAux_pos (c := ':') (by simp) (by decide)

theorem estimateTokens_msgText_pos (m : Msg) : 1 ≤ estimateTokens (msgText m) := by
  have h := countWords_msgText_pos m
  rw [estimateTokens]
  calc 1 = 1 * 4 / 3 := by norm_num
    _ ≤ countWords (msgText m) * 4 / 3 :=
        Nat.div_le_div_right (Nat.mul_le_mul_right 4 h)

theorem tokenCount_cons (m : Msg) (ctx : List Msg) :
    tokenCount (m :: ctx) = estimateTokens (msgText m) + tokenCount ctx := by
  simp [tokenCount]

theorem tokenCount_append (a b : List Msg) :
    tokenCount (a ++ b) = tokenCount a + tokenCount b := by
  simp [tokenCount]

theorem tokenCount_cons_pos (m : Msg) (ctx : List Msg) :
    1 ≤ tokenCount (m :: ctx) := by
  rw [tokenCount_cons]
  have := estimateTokens_msgText_pos m
  omega

/-! ## Lemmas about the extraction loop and pressure relief -/

theorem extractStep_none_iff (ctx : List Msg) :
    extractStep ctx = none ↔ ∀ m ∈ ctx, m.role = "system" := by
  induction ctx with
  | nil => simp [extractStep]
  | cons hd tl ih =>
    by_cases hr : hd.role = "system"
    · simp only [extractStep, if_pos hr, Option.map_eq_none']
      rw [ih]
      constructor
      · intro h m hm
        rcases List.mem_cons.mp hm with rfl | hm'
        · exact hr
        · exact h m hm'
      · intro h m hm
        exact h m (by simp [hm])
    · simp only [extractStep, if_neg hr]
      constructor
      · intro h
        exact absurd h (by simp)
      · intro h
        exact absurd (h hd (by simp)) hr

theorem extractStep_tokens {ctx : List Msg} {m : Msg} {ctx' : List Msg}
    (h : extractStep ctx = some (m, ctx')) :
    tokenCount ctx = estimateTokens (msgText m) + tokenCount ctx' := by
  induction ctx generalizing m ctx' with
  | nil => simp [extractStep] at h
  | cons hd tl ih =>
    simp only [extractStep] at h
    by_cases hr : hd.role = "system"
    · rw [if_pos hr] at h
      cases hstep : extractStep tl with
      | none => rw [hstep] at h; simp at h
      | some p =>
        obtain ⟨m', tl'⟩ := p
        rw [hstep, Option.map_some'] at h
        simp only [Option.some.injEq, Prod.mk.injEq] at h
        obtain ⟨rfl, rfl⟩ := h
        rw [tokenCount_cons, tokenCount_cons, ih hstep]
        ring
    · rw [if_neg hr] at h
      simp only [Option.some.injEq, Prod.mk.injEq] at h
      obtain ⟨rfl, rfl⟩ := h
      rw [tokenCount_cons]

/-- Unfolding: the loop stops when the guard fails. -/
theorem relieveLoop_eq_stop (ctx ext : List Msg) (tok : Nat) (T : Int)
    (hcond : ¬((tok : Int) < T ∧ 1 < ctx.length)) :
    relieveLoop ctx ext tok T = (ctx, ext, tok) := by
  rw [relieveLoop, if_neg hcond]

/-- Unfolding: the loop stops when only system messages remain. -/
theorem relieveLoop_eq_none (ctx ext : List Msg) (tok : Nat) (T : Int)
    (hcond : (tok : Int) < T ∧ 1 < ctx.length)
    (hstep : extractStep ctx = none) :
    relieveLoop ctx ext tok T = (ctx, ext, tok) := by
  rw [relieveLoop, if_pos hcond]
  split
  next heq => rfl
  next m ctx' heq => rw [hstep] at heq; cases heq

/-- Unfolding: the loop extracts the first non-system message and
recurses. -/
theorem relieveLoop_eq_some (ctx ext : List Msg) (tok : Nat) (T : Int)
    {m : Msg} {ctx' : List Msg}
    (hcond : (tok : Int) < T ∧ 1 < ctx.length)
    (hstep : extractStep ctx = some (m, ctx')) :
    relieveLoop ctx ext tok T
      = relieveLoop ctx' (ext ++ [m]) (tok + estimateTokens (msgText m)) T := by
  rw [relieveLoop, if_pos hcond]
  split
  next heq => rw [hstep] at heq; cases heq
  next m' ctx'' heq =>
    rw [hstep] at heq
    cases heq
    rfl

/-- Token accounting across the extraction loop: tokens only move from the
buffer to the extracted total. -/
theorem relieveLoop_tokens (ctx ext : List Msg) (tok : Nat) (T : Int) :
    tokenCount (relieveLoop ctx ext tok T).1 + (relieveLoop ctx ext tok T).2.2
      = tokenCount ctx + tok := by
  induction ctx, ext, tok, T using relieveLoop.induct with
  | case1 ctx ext tok T hcond hstep =>
    rw [relieveLoop_eq_none ctx ext tok T hcond hstep]
  | case2 ctx ext tok T hcond m ctx' hstep ih =>
    rw [relieveLoop_eq_some ctx ext tok T hcond hstep]
    have := extractStep_tokens hstep
    omega
  | case3 ctx ext tok T hcond =>
    rw [relieveLoop_eq_stop ctx ext tok T hcond]

/-- The loop stops only because the target was met, a single message
remains, or only system messages remain. -/
theorem relieveLoop_stop (ctx ext : List Msg) (tok : Nat) (T : Int) :
    T ≤ ((relieveLoop ctx ext tok T).2.2 : Int)
    ∨ (relieveLoop ctx ext tok T).1.length ≤ 1
    ∨ extractStep (relieveLoop ctx ext tok T).1 = none := by
  induction ctx, ext, tok, T using relieveLoop.induct with
  | case1 ctx ext tok T hcond hstep =>
    rw [relieveLoop_eq_none ctx ext tok T hcond hstep]
    right; right; exact hstep
  | case2 ctx ext tok T hcond m ctx' hstep ih =>
    rw [relieveLoop_eq_some ctx ext tok T hcond hstep]
    exact ih
  | case3 ctx ext tok T hcond =>
    rw [relieveLoop_eq_stop ctx ext tok T hcond]
    rcases not_and_or.mp hcond with h | h
    · left; simp only; omega
    · right; left; simp only; omega

/-- The loop leaves the inputs untouched when at most one message is
buffered or every buffered message is a system message. -/
theorem relieveLoop_noop (ctx ext : List Msg) (tok : Nat) (T : Int)
    (h : ctx.length ≤ 1 ∨ ∀ m ∈ ctx, m.role = "system") :
    relieveLoop ctx ext tok T = (ctx, ext, tok) := by
  by_cases hcond : (tok : Int) < T ∧ 1 < ctx.length
  · rcases h with h | h
    · exact absurd hcond.2 (by omega)
    · exact relieveLoop_eq_none ctx ext tok T hcond
        ((extractStep_none_iff ctx).mpr h)
  · exact relieveLoop_eq_stop ctx ext tok T hcond

/-- `OffloadQueue.enqueue` succeeds whenever the queue's capacity is at
least one, and always reports acceptance, appends the job at the tail and
counts the enqueue. -/
theorem enqueue_ok_of_pos (q : OQState) (job : OffloadJob) (h : 1 ≤ q.maxSize) :
    ∃ q', q.enqueue job = .ok (q', true)
      ∧ q'.queue.getLast? = some job
      ∧ q'.enqueuedCount = q.enqueuedCount + 1
      ∧ q'.maxSize = q.maxSize
      ∧ q'.queue ≠ [] := by
  rw [OQState.enqueue]
  by_cases hfull : q.queue.length ≥ q.maxSize
  · rw [if_pos hfull]
    cases hq : q.queue with
    | nil => rw [hq] at hfull; simp at hfull; omega
    | cons j0 rest =>
      refine ⟨_, rfl, ?_, rfl, rfl, by simp⟩
      simp [List.getLast?_append]
  · rw [if_neg hfull]
    refine ⟨_, rfl, ?_, rfl, rfl, by simp⟩
    simp [List.getLast?_append]

/-- Explicit success form of `_relieve_pressure` given a successful
enqueue. -/
theorem relievePressure_eq (jobId : String) (s : CMState) (q' : OQState)
    (henq : s.offloadQueue.enqueue (mkReliefJob jobId s) = .ok (q', true)) :
    relievePressure jobId s = .ok
      { s with
        workingContext :=
          placeholderCard jobId (reliefParts s).2.2 (reliefParts s).2.1.length
            :: (reliefParts s).1,
        offloadQueue := q',
        offloadJobCount := s.offloadJobCount + 1,
        lastReliefTokens := tokenCount
          (placeholderCard jobId (reliefParts s).2.2 (reliefParts s).2.1.length
            :: (reliefParts s).1) } := by
  rw [relievePressure]
  simp only [henq]
  rfl

set_option maxRecDepth 100000

/-! ## Claim C7 — offload queue overflow and batch dequeue -/

/-- A sequence of `enqueue` calls (each discarding the returned flag, as
`_relieve_pressure` does). -/
def enqueueAll (jobs : List OffloadJob) (q : OQState) : Except String OQState :=
  jobs.foldlM (fun acc j => (acc.enqueue j).map Prod.fst) q

theorem enqueue_not_full (q : OQState) (j : OffloadJob)
    (h : q.queue.length < q.maxSize) :
    q.enqueue j = .ok ({ q with
      queue := q.queue ++ [j],
      enqueuedCount := q.enqueuedCount + 1 }, true) := by
  rw [OQState.enqueue, if_neg (by omega)]

theorem enqueueAll_no_overflow (jobs : List OffloadJob) (q : OQState)
    (h : q.queue.length + jobs.length ≤ q.maxSize) :
    enqueueAll jobs q = .ok { q with
      queue := q.queue ++ jobs,
      enqueuedCount := q.enqueuedCount + jobs.length } := by
  induction jobs generalizing q with
  | nil =>
    simp [enqueueAll]
    rfl
  | cons j js ih =>
    rw [enqueueAll, List.foldlM_cons,
      enqueue_not_full q j (by simp at h; omega)]
    have hih := ih ({ q with
      queue := q.queue ++ [j],
      enqueuedCount := q.enqueuedCount + 1 }) (by simp at h ⊢; omega)
    rw [enqueueAll] at hih
    simp only [Except.map, bind, Except.bind] at hih ⊢
    rw [hih]
    simp only [Except.ok.injEq, OQState.mk.injEq]
    refine ⟨by simp, trivial, by simp only [List.length_cons]; omega, trivial, trivial⟩

/-- C7 counterexample: on a queue of capacity `K = 0`, the very first
enqueue from empty raises `IndexError` (`deque.popleft` on an empty
deque) instead of accepting the job with `current_size = K` and
`dropped = 1`. -/
theorem C7_counterexample :
    (OQState.init 0).enqueue ⟨"job_c7", "user: hello", 4, 1, 1⟩
      = .error "IndexError: pop from an empty deque" := by
  rfl

/-- C7 (amended): for every capacity `K ≥ 1`: an enqueue onto a full queue
drops the head, appends the new job and counts the drop; `K + 1` enqueues
from empty leave `current_size = K` and `dropped = 1` with the first job
gone; and `dequeue_batch n` removes and returns the first
`min n (queue length)` jobs in FIFO order. -/
theorem C7_queue_amended (K : Nat) (hK : 1 ≤ K) (jobs : List OffloadJob)
    (hlen : jobs.length = K + 1) :
    (∀ (q : OQState) (job : OffloadJob), q.maxSize = K → q.queue.length = K →
        q.enqueue job = .ok ({ q with
          queue := q.queue.tail ++ [job],
          enqueuedCount := q.enqueuedCount + 1,
          droppedCount := q.droppedCount + 1 }, true))
    ∧ (∃ q', enqueueAll jobs (OQState.init K) = .ok q'
         ∧ q'.currentSize = K ∧ q'.droppedCount = 1 ∧ q'.enqueuedCount = K + 1
         ∧ q'.queue = jobs.tail)
    ∧ (∀ (q : OQState) (n : Nat),
        (q.dequeueBatch n).2 = q.queue.take n
        ∧ (q.dequeueBatch n).1.queue = q.queue.drop n
        ∧ (q.dequeueBatch n).1.processedCount
            = q.processedCount + min n q.queue.length) := by
  refine ⟨?_, ?_, ?_⟩
  · intro q job hmax hfull
    rw [OQState.enqueue, if_pos (by omega)]
    cases hq : q.queue with
    | nil => rw [hq] at hfull; simp at hfull; omega
    | cons j0 rest => simp
  · cases hjobs : jobs with
    | nil => rw [hjobs] at hlen; simp at hlen
    | cons j0 rest =>
      rw [hjobs] at hlen
      simp only [List.length_cons] at hlen
      have hr : rest.length = K := by omega
      rcases List.eq_nil_or_concat rest with rfl | ⟨rest', last, rfl⟩
      · exfalso
        simp at hr
        omega
      · simp only [List.concat_eq_append] at hr ⊢
        simp only [List.length_append, List.length_cons, List.length_nil] at hr
        -- the first K enqueues fill the queue without dropping
        have h1 : enqueueAll (j0 :: rest') (OQState.init K)
            = .ok ⟨j0 :: rest', K, rest'.length + 1, 0, 0⟩ := by
          have := enqueueAll_no_overflow (j0 :: rest') (OQState.init K)
            (by simp [OQState.init]; omega)
          simpa [OQState.init] using this
        -- the queue now holds exactly K jobs; the last enqueue drops the head
        have h2 : (OQState.mk (j0 :: rest') K (rest'.length + 1) 0 0).enqueue last
            = .ok (⟨rest' ++ [last], K, rest'.length + 1 + 1, 0, 0 + 1⟩, true) := by
          rw [OQState.enqueue, if_pos (by simp; omega)]
        refine ⟨⟨rest' ++ [last], K, rest'.length + 1 + 1, 0, 0 + 1⟩,
          ?_, ?_, rfl, by show rest'.length + 1 + 1 = K + 1; omega, by simp⟩
        · have h1' := h1
          rw [enqueueAll] at h1'
          have hsplit : (j0 :: (rest' ++ [last]) : List OffloadJob)
              = (j0 :: rest') ++ [last] := by simp
          rw [enqueueAll, hsplit, List.foldlM_append, h1']
          show ([last].foldlM (fun acc j => (acc.enqueue j).map Prod.fst)
            (OQState.mk (j0 :: rest') K (rest'.length + 1) 0 0)) = _
          rw [List.foldlM_cons, h2]
          rfl
        · show (rest' ++ [last]).length = K
          simp
          omega
  · intro q n
    refine ⟨?_, ?_, rfl⟩
    · show q.queue.take (min n q.queue.length) = q.queue.take n
      rcases le_total n q.queue.length with h | h
      · rw [min_eq_left h]
      · rw [min_eq_right h, List.take_length, List.take_of_length_le h]
    · show { q with
          queue := q.queue.drop (min n q.queue.length),
          processedCount := q.processedCount + min n q.queue.length }.queue
        = q.queue.drop n
      rcases le_total n q.queue.length with h | h
      · rw [min_eq_left h]
      · show q.queue.drop (min n q.queue.length) = q.queue.drop n
        rw [min_eq_right h, List.drop_length, eq_comm]
        exact List.drop_eq_nil_of_le h

/-- Witness for C7's amended theorem at capacity `K = 2` with three
enqueued jobs. -/
theorem C7_queue_amended_witness :
    (∀ (q : OQState) (job : OffloadJob), q.maxSize = 2 → q.queue.length = 2 →
        q.enqueue job = .ok ({ q with
          queue := q.queue.tail ++ [job],
          enqueuedCount := q.enqueuedCount + 1,
          droppedCount := q.droppedCount + 1 }, true))
    ∧ (∃ q', enqueueAll [⟨"job_a", "", 0, 0, 1⟩, ⟨"job_b", "", 0, 0, 2⟩,
               ⟨"job_c", "", 0, 0, 3⟩] (OQState.init 2) = .ok q'
         ∧ q'.currentSize = 2 ∧ q'.droppedCount = 1 ∧ q'.enqueuedCount = 2 + 1
         ∧ q'.queue = ([⟨"job_a", "", 0, 0, 1⟩, ⟨"job_b", "", 0, 0, 2⟩,
               ⟨"job_c", "", 0, 0, 3⟩] : List OffloadJob).tail)
    ∧ (∀ (q : OQState) (n : Nat),
        (q.dequeueBatch n).2 = q.queue.take n
        ∧ (q.dequeueBatch n).1.queue = q.queue.drop n
        ∧ (q.dequeueBatch n).1.processedCount
            = q.processedCount + min n q.queue.length) :=
  C7_queue_amended 2 (by norm_num) _ rfl

/-! ## Claim C4 — pressure trigger with hysteresis -/

/-- The tie between `last_relief_tokens` and relief history: zero exactly
when no relief has completed (`offload_job_count = 0`).  It holds in the
initial state and is preserved by `add_message` (lemmas below), because a
completed relief always leaves the freshly inserted placeholder card in
the buffer, whose estimate is positive. -/
def lastReliefConsistent (s : CMState) : Prop :=
  s.lastReliefTokens = 0 ↔ s.offloadJobCount = 0

theorem init_lastReliefConsistent (cfg : CMConfig) (queueMax : Nat) :
    lastReliefConsistent (CMState.init cfg queueMax) := by
  simp [CMState.init, lastReliefConsistent]

theorem relievePressure_inv {jobId : String} {s s' : CMState}
    (h : relievePressure jobId s = .ok s') :
    s'.offloadJobCount = s.offloadJobCount + 1 ∧ 1 ≤ s'.lastReliefTokens
    ∧ s'.cfg = s.cfg := by
  rw [relievePressure] at h
  rcases hparts : reliefParts s with ⟨ctx', ext, tok⟩
  rw [hparts] at h
  simp only [] at h
  cases henq : s.offloadQueue.enqueue (mkReliefJob jobId s) with
  | error e =>
    rw [henq] at h
    simp [bind, Except.bind] at h
  | ok p =>
    obtain ⟨q', b⟩ := p
    rw [henq] at h
    simp only [bind, Except.bind, pure, Except.pure, Except.ok.injEq] at h
    subst h
    refine ⟨rfl, ?_, rfl⟩
    exact tokenCount_cons_pos _ _

theorem addMessage_preserves_consistent {jobId : String} {s s' : CMState}
    {role content : String} {b : Bool}
    (hinv : lastReliefConsistent s)
    (h : addMessage jobId s role content = .ok (s', b)) :
    lastReliefConsistent s' := by
  rw [addMessage] at h
  split at h
  · cases hrp : relievePressure jobId
      { s with workingContext := s.workingContext ++ [⟨role, content⟩] } with
    | error e =>
      rw [hrp] at h
      simp [Except.map] at h
    | ok s2 =>
      rw [hrp] at h
      simp only [Except.map, Except.ok.injEq, Prod.mk.injEq] at h
      obtain ⟨rfl, rfl⟩ := h
      have := relievePressure_inv hrp
      rw [lastReliefConsistent]
      constructor
      · intro h0
        omega
      · intro h0
        omega
  · simp only [Except.ok.injEq, Prod.mk.injEq] at h
    obtain ⟨rfl, rfl⟩ := h
    exact hinv

/-- C4: on every `add_message`, relief triggers exactly when the post-append
token count exceeds `T_hi` and (no relief has completed yet, or it also
exceeds `T_hy`). -/
theorem C4_relief_trigger_iff (jobId : String) (s : CMState) (role content : String)
    (hinv : lastReliefConsistent s) (hq : 1 ≤ s.offloadQueue.maxSize) :
    ∃ s' triggered, addMessage jobId s role content = .ok (s', triggered) ∧
      (triggered = true ↔
        (s.cfg.pressureThreshold < tokenCount (s.workingContext ++ [⟨role, content⟩])
         ∧ (s.offloadJobCount = 0
            ∨ s.cfg.hysteresisThreshold < tokenCount (s.workingContext ++ [⟨role, content⟩])))) := by
  have hiff : reliefTriggered s (tokenCount (s.workingContext ++ [⟨role, content⟩])) = true ↔
      (s.cfg.pressureThreshold < tokenCount (s.workingContext ++ [⟨role, content⟩])
       ∧ (s.offloadJobCount = 0
          ∨ s.cfg.hysteresisThreshold < tokenCount (s.workingContext ++ [⟨role, content⟩]))) := by
    rw [reliefTriggered]
    simp only [Bool.and_eq_true, Bool.or_eq_true, decide_eq_true_eq, beq_iff_eq]
    rw [lastReliefConsistent] at hinv
    rw [hinv]
  by_cases htrig : reliefTriggered s (tokenCount (s.workingContext ++ [⟨role, content⟩])) = true
  · have hq1 : 1 ≤ ({ s with
        workingContext := s.workingContext ++ [⟨role, content⟩] } : CMState).offloadQueue.maxSize := hq
    obtain ⟨q', henq, -, -, -, -⟩ := enqueue_ok_of_pos
      ({ s with workingContext := s.workingContext ++ [⟨role, content⟩] } : CMState).offloadQueue
      (mkReliefJob jobId { s with workingContext := s.workingContext ++ [⟨role, content⟩] })
      hq1
    obtain ⟨s2, hs2⟩ : ∃ s2, relievePressure jobId
        { s with workingContext := s.workingContext ++ [⟨role, content⟩] } = .ok s2 :=
      ⟨_, relievePressure_eq jobId _ q' henq⟩
    refine ⟨s2, true, ?_, iff_of_true rfl (hiff.mp htrig)⟩
    rw [addMessage, if_pos htrig, hs2]
    rfl
  · refine ⟨{ s with workingContext := s.workingContext ++ [⟨role, content⟩] },
      false, ?_, ?_⟩
    · rw [addMessage, if_neg htrig]
    · simp only [Bool.false_eq_true, false_iff]
      rw [← hiff]
      exact htrig

/-- The hysteresis scenario state (spec S2): one earlier relief left the
buffer at 549 tokens (a 411-word assistant message) with
`last_relief_tokens = 549`. -/
def c4State : CMState :=
  { cfg := scenarioConfig,
    workingContext := [mkMsg "assistant" 411],
    offloadQueue := ⟨[⟨"job_prev", "assistant: earlier", 400, 1, 1⟩], 100, 1, 0, 0⟩,
    offloadJobCount := 1,
    lastReliefTokens := 549 }

/-- Witness for C4: appending a 50-token user message to the post-relief
549-token buffer. -/
theorem C4_relief_trigger_iff_witness :
    ∃ s' triggered, addMessage "job_w4" c4State "user" (mkWords 37) = .ok (s', triggered) ∧
      (triggered = true ↔
        (c4State.cfg.pressureThreshold
            < tokenCount (c4State.workingContext ++ [⟨"user", mkWords 37⟩])
         ∧ (c4State.offloadJobCount = 0
            ∨ c4State.cfg.hysteresisThreshold
                < tokenCount (c4State.workingContext ++ [⟨"user", mkWords 37⟩])))) :=
  C4_relief_trigger_iff "job_w4" c4State "user" (mkWords 37)
    (by unfold lastReliefConsistent; decide) (by decide)

/-! ## Claims C5, C6, C10 — shed-to-target, placeholder placement,
degenerate relief -/

theorem extractStep_role {ctx : List Msg} {m : Msg} {ctx' : List Msg}
    (h : extractStep ctx = some (m, ctx')) : m.role ≠ "system" := by
  induction ctx generalizing m ctx' with
  | nil => simp [extractStep] at h
  | cons hd tl ih =>
    simp only [extractStep] at h
    by_cases hr : hd.role = "system"
    · rw [if_pos hr] at h
      cases hstep : extractStep tl with
      | none => rw [hstep] at h; simp at h
      | some p =>
        obtain ⟨m', tl'⟩ := p
        rw [hstep, Option.map_some'] at h
        simp only [Option.some.injEq, Prod.mk.injEq] at h
        obtain ⟨rfl, rfl⟩ := h
        exact ih hstep
    · rw [if_neg hr] at h
      simp only [Option.some.injEq, Prod.mk.injEq] at h
      obtain ⟨rfl, rfl⟩ := h
      exact hr

/-- Every message the loop extracts is a non-system message. -/
theorem relieveLoop_ext_nonsystem (ctx ext : List Msg) (tok : Nat) (T : Int)
    (hext : ∀ m ∈ ext, m.role ≠ "system") :
    ∀ m ∈ (relieveLoop ctx ext tok T).2.1, m.role ≠ "system" := by
  induction ctx, ext, tok, T using relieveLoop.induct with
  | case1 ctx ext tok T hcond hstep =>
    rw [relieveLoop_eq_none ctx ext tok T hcond hstep]
    exact hext
  | case2 ctx ext tok T hcond m ctx' hstep ih =>
    rw [relieveLoop_eq_some ctx ext tok T hcond hstep]
    refine ih ?_
    intro x hx
    rcases List.mem_append.mp hx with hx | hx
    · exact hext x hx
    · simp at hx
      subst hx
      exact extractStep_role hstep
  | case3 ctx ext tok T hcond =>
    rw [relieveLoop_eq_stop ctx ext tok T hcond]
    exact hext

/-- Success-shape inversion for `_relieve_pressure`. -/
theorem relievePressure_ok_shape {jobId : String} {s s' : CMState}
    (h : relievePressure jobId s = .ok s') :
    ∃ q' b, s.offloadQueue.enqueue (mkReliefJob jobId s) = .ok (q', b)
      ∧ s' = { s with
          workingContext :=
            placeholderCard jobId (reliefParts s).2.2 (reliefParts s).2.1.length
              :: (reliefParts s).1,
          offloadQueue := q',
          offloadJobCount := s.offloadJobCount + 1,
          lastReliefTokens := tokenCount
            (placeholderCard jobId (reliefParts s).2.2 (reliefParts s).2.1.length
              :: (reliefParts s).1) } := by
  rw [relievePressure] at h
  rcases hparts : reliefParts s with ⟨ctx', ext, tok⟩
  rw [hparts] at h
  simp only [] at h
  cases henq : s.offloadQueue.enqueue (mkReliefJob jobId s) with
  | error e =>
    rw [henq] at h
    simp [bind, Except.bind] at h
  | ok p =>
    obtain ⟨q', b⟩ := p
    rw [henq] at h
    simp only [bind, Except.bind, pure, Except.pure, Except.ok.injEq] at h
    refine ⟨q', b, rfl, ?_⟩
    rw [← h]

/-- The enqueued job always ends up at the queue's tail when `enqueue`
returns. -/
theorem enqueue_ok_shape {q q' : OQState} {job : OffloadJob} {b : Bool}
    (h : q.enqueue job = .ok (q', b)) :
    q'.queue.getLast? = some job ∧ q'.enqueuedCount = q.enqueuedCount + 1 := by
  rw [OQState.enqueue] at h
  by_cases hfull : q.queue.length ≥ q.maxSize
  · rw [if_pos hfull] at h
    cases hq : q.queue with
    | nil => rw [hq] at h; simp at h
    | cons j0 rest =>
      rw [hq] at h
      simp only [Except.ok.injEq, Prod.mk.injEq] at h
      obtain ⟨hq', -⟩ := h
      rw [← hq']
      simp [List.getLast?_append]
  · rw [if_neg hfull] at h
    simp only [Except.ok.injEq, Prod.mk.injEq] at h
    obtain ⟨hq', -⟩ := h
    rw [← hq']
    simp [List.getLast?_append]

/-- C5 (amended): every completed relief leaves the placeholder at the head
of the remaining buffer; the extraction removed only non-system messages,
stopping once the remaining buffer is within `T_tgt` (unless a single
message or only system messages remained); the post-relief total therefore
stays within `T_tgt` plus the placeholder card's own estimate. -/
theorem C5_shed_to_target (jobId : String) (s s' : CMState)
    (h : relievePressure jobId s = .ok s') :
    s'.workingContext
      = placeholderCard jobId (reliefParts s).2.2 (reliefParts s).2.1.length
          :: (reliefParts s).1
    ∧ (tokenCount (reliefParts s).1 ≤ s.cfg.targetTokens
       ∨ (reliefParts s).1.length ≤ 1
       ∨ ∀ m ∈ (reliefParts s).1, m.role = "system")
    ∧ (∀ m ∈ (reliefParts s).2.1, m.role ≠ "system")
    ∧ (tokenCount (reliefParts s).1 ≤ s.cfg.targetTokens →
        tokenCount s'.workingContext ≤ s.cfg.targetTokens
          + estimateTokens (msgText (placeholderCard jobId (reliefParts s).2.2
              (reliefParts s).2.1.length))) := by
  obtain ⟨q', b, henq, rfl⟩ := relievePressure_ok_shape h
  refine ⟨rfl, ?_, ?_, ?_⟩
  · have hstop := relieveLoop_stop s.workingContext [] 0 (tokensToExtract s)
    have htok := relieveLoop_tokens s.workingContext [] 0 (tokensToExtract s)
    rcases hstop with hstop | hstop | hstop
    · left
      have hT0 : tokensToExtract s
          = (tokenCount s.workingContext : Int) - (s.cfg.targetTokens : Int) := rfl
      rw [reliefParts]
      omega
    · right; left
      rw [reliefParts]
      exact hstop
    · right; right
      rw [reliefParts]
      exact (extractStep_none_iff _).mp hstop
  · rw [reliefParts]
    exact relieveLoop_ext_nonsystem s.workingContext [] 0 (tokensToExtract s)
      (by intro m hm; simp at hm)
  · intro hrest
    rw [tokenCount_cons]
    omega

/-- Scenario messages for the shed-to-target claims: a 400-token and a
500-token user message (word counts 300 and 375). -/
def c5m1 : Msg := mkMsg "user" 299

/-- The second scenario message (500 tokens). -/
def c5m2 : Msg := mkMsg "user" 374

/-- Buffer state after the first append (400 tokens < `T_hi`): no relief. -/
def c5s1 : CMState :=
  { cfg := scenarioConfig, workingContext := [c5m1],
    offloadQueue := OQState.init 100, offloadJobCount := 0, lastReliefTokens := 0 }

/-- Buffer state after the second append, at the moment relief fires (900
tokens). -/
def c5s1' : CMState := { c5s1 with workingContext := [c5m1, c5m2] }

/-- The job the scenario relief enqueues: the single extracted 400-token
message. -/
def c5job : OffloadJob := ⟨"job_c5b", msgText c5m1, 400, 1, 1⟩

/-- The post-relief state of the scenario: the placeholder card plus the
surviving 500-token message — 506 estimated tokens in total. -/
def c5s2 : CMState :=
  { cfg := scenarioConfig,
    workingContext := [placeholderCard "job_c5b" 400 1, c5m2],
    offloadQueue := ⟨[c5job], 100, 1, 0, 0⟩,
    offloadJobCount := 1,
    lastReliefTokens := 506 }

theorem c5m1_tokens : estimateTokens (msgText c5m1) = 400 := by
  rw [c5m1, estimateTokens_mkMsg "user" 299 (by decide)]

theorem c5_parts : reliefParts c5s1' = ([c5m2], [c5m1], 400) := by
  have hT : tokensToExtract c5s1' = 400 := by
    rw [tokensToExtract]
    norm_num [show tokenCount c5s1'.workingContext = 900 from by decide,
      show c5s1'.cfg.targetTokens = 500 from by decide]
  rw [reliefParts, hT,
    relieveLoop_eq_some _ _ _ _ ⟨by norm_num, by decide⟩
      (show extractStep c5s1'.workingContext = some (c5m1, [c5m2]) from by decide)]
  rw [List.nil_append, Nat.zero_add, c5m1_tokens,
    relieveLoop_eq_stop _ _ _ _ (by norm_num)]

theorem c5_relief : relievePressure "job_c5b" c5s1' = .ok c5s2 := by
  have hjob : mkReliefJob "job_c5b" c5s1' = c5job := by
    rw [mkReliefJob, c5_parts]
    rfl
  have henq : c5s1'.offloadQueue.enqueue (mkReliefJob "job_c5b" c5s1')
      = .ok (⟨[c5job], 100, 1, 0, 0⟩, true) := by
    rw [hjob]
    rfl
  rw [relievePressure_eq "job_c5b" c5s1' _ henq, c5_parts]
  have h506 : tokenCount (placeholderCard "job_c5b" 400 1 :: [c5m2]) = 506 := by
    decide
  simp only [List.length_cons, List.length_nil]
  rw [h506]
  rfl

theorem c5_step1 :
    addMessage "job_c5a" (CMState.init scenarioConfig 100) "user" (mkWords 299)
      = .ok (c5s1, false) := by
  rw [addMessage,
    if_neg (show ¬(reliefTriggered (CMState.init scenarioConfig 100)
      (tokenCount ((CMState.init scenarioConfig 100).workingContext
        ++ [⟨"user", mkWords 299⟩])) = true) from by decide)]
  rfl

theorem c5_step2 :
    addMessage "job_c5b" c5s1 "user" (mkWords 374) = .ok (c5s2, true) := by
  rw [addMessage,
    if_pos (show reliefTriggered c5s1
      (tokenCount (c5s1.workingContext ++ [⟨"user", mkWords 374⟩])) = true
      from by decide)]
  show (relievePressure "job_c5b" c5s1').map (fun s2 => (s2, true)) = _
  rw [c5_relief]
  rfl

/-- C5 counterexample: appending a 400-token and then a 500-token message
(900 tokens in total) under `max_context=1000`, `T_hi=800`, `T_tgt=500`,
`T_hy=700` produces exactly one relief — after which the buffer's
estimated token count **including the placeholder card** is 506, not
`≤ 500` as claimed. -/
theorem C5_counterexample :
    addMessage "job_c5a" (CMState.init scenarioConfig 100) "user" (mkWords 299)
      = .ok (c5s1, false)
    ∧ addMessage "job_c5b" c5s1 "user" (mkWords 374) = .ok (c5s2, true)
    ∧ estimateTokens (msgText c5m1) + estimateTokens (msgText c5m2) = 900
    ∧ c5s2.offloadJobCount = 1
    ∧ tokenCount c5s2.workingContext = 506
    ∧ scenarioConfig.targetTokens = 500
    ∧ ¬(tokenCount c5s2.workingContext ≤ scenarioConfig.targetTokens) :=
  ⟨c5_step1, c5_step2, by decide, rfl, by decide, rfl, by decide⟩

/-- Witness for C5's amended theorem at the scenario relief. -/
theorem C5_shed_to_target_witness :
    c5s2.workingContext
      = placeholderCard "job_c5b" (reliefParts c5s1').2.2 (reliefParts c5s1').2.1.length
          :: (reliefParts c5s1').1
    ∧ (tokenCount (reliefParts c5s1').1 ≤ c5s1'.cfg.targetTokens
       ∨ (reliefParts c5s1').1.length ≤ 1
       ∨ ∀ m ∈ (reliefParts c5s1').1, m.role = "system")
    ∧ (∀ m ∈ (reliefParts c5s1').2.1, m.role ≠ "system")
    ∧ (tokenCount (reliefParts c5s1').1 ≤ c5s1'.cfg.targetTokens →
        tokenCount c5s2.workingContext ≤ c5s1'.cfg.targetTokens
          + estimateTokens (msgText (placeholderCard "job_c5b" (reliefParts c5s1').2.2
              (reliefParts c5s1').2.1.length))) :=
  C5_shed_to_target "job_c5b" c5s1' c5s2 c5_relief

/-- C6 (amended): a completed relief wraps the extracted messages —
role-tagged and newline-joined — into a single `OffloadJob` enqueued once
(queue tail gains exactly that job), and replaces them by a single
placeholder card inserted at **index 0** of the working buffer. -/
theorem C6_chunk_and_placeholder (jobId : String) (s s' : CMState)
    (h : relievePressure jobId s = .ok s')
    (hext : (reliefParts s).2.1 ≠ []) :
    s'.workingContext
      = placeholderCard jobId (reliefParts s).2.2 (reliefParts s).2.1.length
          :: (reliefParts s).1
    ∧ s'.offloadQueue.queue.getLast?
        = some ⟨jobId,
            String.intercalate "\n" ((reliefParts s).2.1.map msgText),
            (reliefParts s).2.2, (reliefParts s).2.1.length,
            s.offloadJobCount + 1⟩
    ∧ s'.offloadQueue.enqueuedCount = s.offloadQueue.enqueuedCount + 1
    ∧ s'.offloadJobCount = s.offloadJobCount + 1 := by
  obtain ⟨q', b, henq, rfl⟩ := relievePressure_ok_shape h
  obtain ⟨hlast, hcount⟩ := enqueue_ok_shape henq
  exact ⟨rfl, hlast, hcount, rfl⟩

/-- The 80-token system prompt of the placement counterexample. -/
def c6sys : Msg := mkMsg "system" 59

/-- A 400-token user message. -/
def c6m1 : Msg := mkMsg "user" 299

/-- A 500-token user message. -/
def c6m2 : Msg := mkMsg "user" 374

/-- A buffer whose head is a system prompt followed by two user messages:
the extracted slice will start at index 1. -/
def c6State : CMState :=
  { cfg := scenarioConfig, workingContext := [c6sys, c6m1, c6m2],
    offloadQueue := OQState.init 100, offloadJobCount := 0, lastReliefTokens := 0 }

/-- The job of the placement counterexample: both user messages. -/
def c6job : OffloadJob :=
  ⟨"job_c6", msgText c6m1 ++ "\n" ++ msgText c6m2, 900, 2, 1⟩

/-- The post-relief state of the placement counterexample: the placeholder
lands at index 0, **before** the system prompt that preceded the
extracted slice. -/
def c6After : CMState :=
  { cfg := scenarioConfig,
    workingContext := [placeholderCard "job_c6" 900 2, c6sys],
    offloadQueue := ⟨[c6job], 100, 1, 0, 0⟩,
    offloadJobCount := 1,
    lastReliefTokens := 86 }

theorem c6m1_tokens : estimateTokens (msgText c6m1) = 400 := by
  rw [c6m1, estimateTokens_mkMsg "user" 299 (by decide)]

theorem c6m2_tokens : estimateTokens (msgText c6m2) = 500 := by
  rw [c6m2, estimateTokens_mkMsg "user" 374 (by decide)]

theorem c6_parts : reliefParts c6State = ([c6sys], [c6m1, c6m2], 900) := by
  have hT : tokensToExtract c6State = 480 := by
    rw [tokensToExtract]
    norm_num [show tokenCount c6State.workingContext = 980 from by decide,
      show c6State.cfg.targetTokens = 500 from by decide]
  rw [reliefParts, hT,
    relieveLoop_eq_some _ _ _ _ ⟨by norm_num, by decide⟩
      (show extractStep c6State.workingContext = some (c6m1, [c6sys, c6m2])
        from by decide)]
  rw [List.nil_append, Nat.zero_add, c6m1_tokens,
    relieveLoop_eq_some _ _ _ _ ⟨by norm_num, by decide⟩
      (show extractStep [c6sys, c6m2] = some (c6m2, [c6sys]) from by decide)]
  rw [c6m2_tokens,
    relieveLoop_eq_stop _ _ _ _ (by norm_num)]
  rfl

theorem c6_relief : relievePressure "job_c6" c6State = .ok c6After := by
  have hjob : mkReliefJob "job_c6" c6State = c6job := by
    rw [mkReliefJob, c6_parts]
    rfl
  have henq : c6State.offloadQueue.enqueue (mkReliefJob "job_c6" c6State)
      = .ok (⟨[c6job], 100, 1, 0, 0⟩, true) := by
    rw [hjob]
    rfl
  rw [relievePressure_eq "job_c6" c6State _ henq, c6_parts]
  have h86 : tokenCount (placeholderCard "job_c6" 900 2 :: [c6sys]) = 86 := by
    decide
  simp only [List.length_cons, List.length_nil]
  rw [h86]
  rfl

/-- C6 counterexample: in a relief whose extracted slice sits after a
leading system prompt, the placeholder is inserted at index 0 — in front
of the system prompt — not at the position the extracted slice occupied. -/
theorem C6_counterexample :
    relievePressure "job_c6" c6State = .ok c6After
    ∧ c6After.workingContext = [placeholderCard "job_c6" 900 2, c6sys]
    ∧ c6After.workingContext ≠ [c6sys, placeholderCard "job_c6" 900 2] :=
  ⟨c6_relief, rfl, by decide⟩

/-- Witness for C6's amended theorem at the placement counterexample's
relief. -/
theorem C6_chunk_and_placeholder_witness :
    c6After.workingContext
      = placeholderCard "job_c6" (reliefParts c6State).2.2 (reliefParts c6State).2.1.length
          :: (reliefParts c6State).1
    ∧ c6After.offloadQueue.queue.getLast?
        = some ⟨"job_c6",
            String.intercalate "\n" ((reliefParts c6State).2.1.map msgText),
            (reliefParts c6State).2.2, (reliefParts c6State).2.1.length,
            c6State.offloadJobCount + 1⟩
    ∧ c6After.offloadQueue.enqueuedCount = c6State.offloadQueue.enqueuedCount + 1
    ∧ c6After.offloadJobCount = c6State.offloadJobCount + 1 :=
  C6_chunk_and_placeholder "job_c6" c6State c6After c6_relief
    (by rw [c6_parts]; simp)

/-! ## Claim C10 — degenerate relief still enqueues one empty job and one
placeholder -/

/-- C10: every relief on a buffer from which nothing can be extracted (at
most one message, or only system messages) still enqueues exactly one
`OffloadJob` — with empty `chunk_text`, `token_count = 0`,
`message_count = 0` — and still inserts exactly one placeholder card
reading `tokens:0 msgs:0` at index 0. -/
theorem C10_degenerate_relief (jobId : String) (s : CMState)
    (hq : 1 ≤ s.offloadQueue.maxSize)
    (hdeg : s.workingContext.length ≤ 1 ∨ ∀ m ∈ s.workingContext, m.role = "system") :
    ∃ s', relievePressure jobId s = .ok s'
      ∧ s'.workingContext = placeholderCard jobId 0 0 :: s.workingContext
      ∧ s'.offloadQueue.queue.getLast? = some ⟨jobId, "", 0, 0, s.offloadJobCount + 1⟩
      ∧ s'.offloadQueue.enqueuedCount = s.offloadQueue.enqueuedCount + 1
      ∧ s'.offloadJobCount = s.offloadJobCount + 1
      ∧ (placeholderCard jobId 0 0).content
          = "[ARCHIVED mem_id:" ++ jobId ++ " tokens:0 msgs:0]" := by
  have hparts : reliefParts s = (s.workingContext, [], 0) :=
    relieveLoop_noop s.workingContext [] 0 (tokensToExtract s) hdeg
  have hjob : mkReliefJob jobId s = ⟨jobId, "", 0, 0, s.offloadJobCount + 1⟩ := by
    rw [mkReliefJob, hparts]
    rfl
  obtain ⟨q', henq, hlast, hcount, -, -⟩ :=
    enqueue_ok_of_pos s.offloadQueue (mkReliefJob jobId s) hq
  refine ⟨_, relievePressure_eq jobId s q' henq, ?_, ?_, hcount, rfl, ?_⟩
  · rw [hparts]
    rfl
  · rw [← hjob]
    exact hlast
  · show ("[ARCHIVED mem_id:" ++ jobId ++ " tokens:" ++ toString (0 : Nat)
        ++ " msgs:" ++ toString (0 : Nat) ++ "]" : String)
      = "[ARCHIVED mem_id:" ++ jobId ++ " tokens:0 msgs:0]"
    apply String.ext
    simp only [String.data_append, List.append_assoc]
    exact congrArg _ (congrArg _ (by decide))

/-- A single oversized user message: nothing but it is in the buffer, so
the relief that fires can extract nothing. -/
def c10State : CMState :=
  { cfg := scenarioConfig, workingContext := [mkMsg "user" 700],
    offloadQueue := OQState.init 100, offloadJobCount := 0, lastReliefTokens := 0 }

/-- Witness for C10: relief on a single-message buffer. -/
theorem C10_degenerate_relief_witness :
    ∃ s', relievePressure "job_c10" c10State = .ok s'
      ∧ s'.workingContext = placeholderCard "job_c10" 0 0 :: c10State.workingContext
      ∧ s'.offloadQueue.queue.getLast?
          = some ⟨"job_c10", "", 0, 0, c10State.offloadJobCount + 1⟩
      ∧ s'.offloadQueue.enqueuedCount = c10State.offloadQueue.enqueuedCount + 1
      ∧ s'.offloadJobCount = c10State.offloadJobCount + 1
      ∧ (placeholderCard "job_c10" 0 0).content
          = "[ARCHIVED mem_id:" ++ "job_c10" ++ " tokens:0 msgs:0]" :=
  C10_degenerate_relief "job_c10" c10State (by decide) (by left; decide)

/-! ## Claim C2 — echo-guard escalation at default configuration -/

/-- Under the default configuration (`MAX_REGENERATION_ATTEMPTS = 3`,
`ECHO_STRIP_CONTEXT_ON_RETRY = 3`), when every generation embeds
successfully and is judged a duplicate, the loop performs exactly three
generations, appends exactly the first two escalating overlays, and never
reaches the strip branch (which requires `regeneration_count ≥ 3` while
still `< 3`). -/
theorem echoGuard_three_echoes (llm : Nat → List Msg → String)
    (dup : String → Option Bool) (window : List Msg)
    (hne : ∀ i w, (pyStrip (llm i w)).data.isEmpty = false)
    (hdup : ∀ r, dup r = some true) :
    echoGuardLoop llm dup true 3 3 window 0 =
      (let w1 := window ++ [⟨"system", echoWarning1 (llm 0 window)⟩]
       let w2 := w1 ++ [⟨"system", echoWarning2 (llm 1 w1)⟩]
       if (pyStrip (llm 2 w2)).data.length < 10 then
         ⟨interventionText, w2, 3, false⟩
       else
         ⟨"[REPEATED] " ++ llm 2 w2, w2, 3, true⟩) := by
  rw [echoGuardLoop]
  simp only [hne, hdup]
  norm_num
  rw [echoGuardLoop]
  simp only [hne, hdup]
  norm_num
  rw [echoGuardLoop]
  simp only [hne, hdup]
  norm_num

/-- The window of the echo scenario: a retrieved-knowledge overlay, a
state-memory overlay, and the user turn. -/
def c2Window : List Msg :=
  [⟨"system", "[RETRIEVED LONG-TERM KNOWLEDGE]\nfact one\n[END RETRIEVED KNOWLEDGE]"⟩,
   ⟨"system", "[STATE MEMORY]\nActive Goals: reach the plant\n[END STATE MEMORY]"⟩,
   ⟨"user", "What next?"⟩]

/-- A stub LLM that emits the same response on every generation. -/
def c2llm : Nat → List Msg → String := fun _ _ => "The hydro plant is operational."

/-- A similarity check that judges every response a duplicate (embedding
always succeeds, similarity above `ECHO_SIMILARITY_THRESHOLD`). -/
def c2dup : String → Option Bool := fun _ => some true

/-- C2 evidence (code bug): with the default `MAX_REGENERATION_ATTEMPTS=3`
and `ECHO_STRIP_CONTEXT_ON_RETRY=3` and an always-echoing LLM, the loop
returns `"[REPEATED] …"` after exactly three generations but appends only
**two** escalating overlays and never strips the retrieved-knowledge or
state-memory messages — both are still present in the final window, even
though `stripRagContext` would have removed them had the strip branch been
reachable. -/
theorem C2_echo_guard_no_strip :
    echoGuardLoop c2llm c2dup true 3 3 c2Window 0
      = ⟨"[REPEATED] The hydro plant is operational.",
         c2Window ++ [⟨"system", echoWarning1 "The hydro plant is operational."⟩]
                  ++ [⟨"system", echoWarning2 "The hydro plant is operational."⟩],
         3, true⟩
    ∧ ((c2Window
          ++ [⟨"system", echoWarning1 "The hydro plant is operational."⟩]
          ++ [⟨"system", echoWarning2 "The hydro plant is operational."⟩]
          : List Msg).filter
        (fun m => m.role == "system"
          && (containsSub m.content "RETRIEVED"
              || containsSub m.content "STATE MEMORY"))).length = 2
    ∧ stripRagContext c2Window ≠ c2Window := by
  refine ⟨?_, ?_, ?_⟩
  · rw [echoGuard_three_echoes c2llm c2dup c2Window (fun i w => rfl)
      (fun r => rfl)]
    rw [if_neg (by decide)]
    rfl
  · decide
  · decide

/-! ## Claim C1 — the score floor is never applied: the search call raises -/

/-- `RAG_SCORE_THRESHOLD` (default `0.4`, exactly `2/5`). -/
def ragScoreThreshold : ℚ := 2/5

/-- The spec's S6 store: five points with scores
`0.72, 0.55, 0.41, 0.38, 0.12` — two of them below the floor. -/
def c1Hits : List VecPoint :=
  [⟨"p1", 72/100, some "job_1", some "uid_1", none, some "summary one"⟩,
   ⟨"p2", 55/100, some "job_2", some "uid_2", none, some "summary two"⟩,
   ⟨"p3", 41/100, some "job_3", some "uid_3", none, some "summary three"⟩,
   ⟨"p4", 38/100, some "job_4", some "uid_4", none, some "summary four"⟩,
   ⟨"p5", 12/100, some "job_5", some "uid_5", none, some "summary five"⟩]

/-- C1 evidence (code bug): at the S6 input, retrieval with intent
`"general"` raises `TypeError` (the `score_threshold=` keyword is not a
parameter of `QdrantVectorDB.search`), retrieval with a non-general intent
raises `AttributeError` even earlier (`create_domain_filter` does not
exist), the keyword binding check is what fails, and the adapter's own
search body performs no score filtering — both sub-floor hits (0.38 and
0.12) are among its results. -/
theorem C1_retrieval_raises :
    retrieveMetaphysicalContext "general" c1Hits (fun _ => none) (fun _ => [])
      = .error "TypeError: search() got an unexpected keyword argument 'score_threshold'"
    ∧ retrieveMetaphysicalContext "coding" c1Hits (fun _ => none) (fun _ => [])
      = .error "AttributeError: 'QdrantVectorDB' object has no attribute 'create_domain_filter'"
    ∧ callKwargsOk searchParamNames retrieveSearchKwargNames = false
    ∧ (qdrantSearchBody c1Hits).map (fun r => r.score)
        = [72/100, 55/100, 41/100, 38/100, 12/100]
    ∧ ((qdrantSearchBody c1Hits).filter
        (fun r => decide (r.score < ragScoreThreshold))).length = 2 := by
  refine ⟨rfl, rfl, rfl, rfl, ?_⟩
  norm_num [qdrantSearchBody, c1Hits, ragScoreThreshold, List.filter]

/-! ## Claim C3 — state injection neither increments visits nor warns -/

/-- The boredom scenario graph (mirroring the repository's own test
`test_boredom_detection_warning_injection`): one active task whose
`visit_count` is 6, above `BOREDOM_THRESHOLD = 5`. -/
def c3Graph : GraphState :=
  [⟨"state_1", "task", "implement feature X", "active", 1000, 2000, 6, 2000⟩]

/-- C3 evidence (code bug): building the `[STATE MEMORY]` message over a
graph holding an active task with `visit_count = 6` (a) leaves the graph
untouched — no `increment_state_visits`, no `last_visited` stamp — and
(b) produces a message that contains no `LOOP DETECTED` notice, contrary
to the spec and to the repository's own test which asserts
`"⚠️ LOOP DETECTED" in content`. -/
theorem C3_no_increment_no_warning :
    (buildStateMessage c3Graph).2 = c3Graph
    ∧ visitCountOf (buildStateMessage c3Graph).2 "state_1" = 6
    ∧ lastVisitedOf (buildStateMessage c3Graph).2 "state_1" = 2000
    ∧ (buildStateMessage c3Graph).1
        = some ⟨"system",
            "[STATE MEMORY]\nActive Tasks: implement feature X\n\nNote: Avoid repeating completed actions or contradicting known facts.\n[END STATE MEMORY]"⟩
    ∧ containsSub
        "[STATE MEMORY]\nActive Tasks: implement feature X\n\nNote: Avoid repeating completed actions or contradicting known facts.\n[END STATE MEMORY]"
        "LOOP DETECTED" = false := by
  refine ⟨rfl, rfl, ?_, ?_, ?_⟩
  · rfl
  · rfl
  · decide

/-! ## Claim C8 — visit-count monotonicity across state operations -/

/-- Whether the operation is an `update_state_status` call on `sid`. -/
def StateOp.targetsUpd (op : StateOp) (sid : String) : Bool :=
  match op with
  | .upd s _ _ => s = sid
  | .incr _ _ => false

/-- The per-id step of `increment_state_visits` (named form of the
fold body of `incrementStateVisits`). -/
def incrStep (ts : ℚ) (acc : GraphState × Nat) (sid : String) : GraphState × Nat :=
  ((acc.1.map (fun s =>
      if s.id = sid then
        { s with visitCount := s.visitCount + 1, lastVisited := ts }
      else s)),
   acc.2 + (acc.1.filter (fun s => s.id = sid)).length)

theorem incrementStateVisits_eq (stateIds : List String) (ts : ℚ) (g : GraphState) :
    incrementStateVisits stateIds ts g =
      if stateIds.isEmpty then (g, 0) else stateIds.foldl (incrStep ts) (g, 0) := rfl

theorem find_of_map (f : StateRec → StateRec) (sid : String)
    (hid : ∀ s, (f s).id = s.id) (g : List StateRec) :
    (g.map f).find? (fun s => s.id = sid) = (g.find? (fun s => s.id = sid)).map f := by
  induction g with
  | nil => rfl
  | cons s rest ih =>
    by_cases hs : s.id = sid
    · rw [List.map_cons, List.find?_cons_of_pos _ (by simp [hid, hs]),
        List.find?_cons_of_pos _ (by simp [hs])]
      rfl
    · rw [List.map_cons, List.find?_cons_of_neg _ (by simp [hid, hs]),
        List.find?_cons_of_neg _ (by simp [hs])]
      exact ih

theorem visitCountOf_map_mono (g : GraphState) (sid : String) (f : StateRec → StateRec)
    (hid : ∀ s, (f s).id = s.id)
    (hvc : ∀ s, s.visitCount ≤ (f s).visitCount) :
    visitCountOf g sid ≤ visitCountOf (g.map f) sid := by
  rw [visitCountOf, visitCountOf, find_of_map f sid hid g]
  cases g.find? (fun s => s.id = sid) with
  | none => exact Nat.le_refl 0
  | some s => exact hvc s

theorem visitCountOf_map_eq (g : GraphState) (sid : String) (f : StateRec → StateRec)
    (hid : ∀ s, (f s).id = s.id)
    (hvc : ∀ s, s.id = sid → (f s).visitCount = s.visitCount) :
    visitCountOf (g.map f) sid = visitCountOf g sid := by
  rw [visitCountOf, visitCountOf, find_of_map f sid hid g]
  cases hfind : g.find? (fun s => s.id = sid) with
  | none => rfl
  | some s => exact hvc s (by simpa using List.find?_some hfind)

theorem incrStep_mono (ts : ℚ) (sid iid : String) (acc : GraphState × Nat) :
    visitCountOf acc.1 sid ≤ visitCountOf (incrStep ts acc iid).1 sid :=
  visitCountOf_map_mono acc.1 sid _
    (by intro s; split <;> rfl)
    (by intro s
        split
        · exact Nat.le_succ _
        · exact Nat.le_refl _)

theorem foldl_incrStep_mono (ts : ℚ) (sid : String) (ids : List String) :
    ∀ acc : GraphState × Nat,
      visitCountOf acc.1 sid ≤ visitCountOf (ids.foldl (incrStep ts) acc).1 sid := by
  induction ids with
  | nil => intro acc; exact Nat.le_refl _
  | cons iid rest ih =>
    intro acc
    rw [List.foldl_cons]
    exact le_trans (incrStep_mono ts sid iid acc) (ih (incrStep ts acc iid))

theorem incrementStateVisits_mono (stateIds : List String) (ts : ℚ)
    (g : GraphState) (sid : String) :
    visitCountOf g sid ≤ visitCountOf (incrementStateVisits stateIds ts g).1 sid := by
  rw [incrementStateVisits_eq]
  by_cases hids : stateIds.isEmpty
  · rw [if_pos hids]
  · rw [if_neg hids]
    exact foldl_incrStep_mono ts sid stateIds (g, 0)

theorem updateStateStatus_fst (stateId newStatus : String) (ts : Int) (g : GraphState) :
    (updateStateStatus stateId newStatus ts g).1 =
      g.map (fun s =>
        if s.id = stateId then
          { s with status := newStatus, updated := ts, visitCount := 0,
                   lastVisited := 0 }
        else s) := rfl

theorem updateStateStatus_other (uid st : String) (ts : Int) (g : GraphState)
    (sid : String) (h : uid ≠ sid) :
    visitCountOf (updateStateStatus uid st ts g).1 sid = visitCountOf g sid := by
  rw [updateStateStatus_fst]
  refine visitCountOf_map_eq g sid _ (by intro s; split <;> rfl) ?_
  intro s hssid
  rw [if_neg (by rw [hssid]; exact fun hc => h hc.symm)]

theorem updateStateStatus_resets (newStatus : String) (ts : Int) (g : GraphState)
    (sid : String) :
    visitCountOf (updateStateStatus sid newStatus ts g).1 sid = 0
    ∧ lastVisitedOf (updateStateStatus sid newStatus ts g).1 sid = 0 := by
  rw [updateStateStatus_fst, visitCountOf, lastVisitedOf,
    find_of_map _ sid (by intro s; split <;> rfl) g]
  cases hfind : g.find? (fun s => s.id = sid) with
  | none => exact ⟨rfl, rfl⟩
  | some s =>
    have hs : s.id = sid := by simpa using List.find?_some hfind
    simp [hs]

theorem runStateOps_mono (sid : String) :
    ∀ (ops : List StateOp) (g : GraphState),
      (∀ op ∈ ops, op.targetsUpd sid = false) →
      visitCountOf g sid ≤ visitCountOf (runStateOps ops g) sid := by
  intro ops
  induction ops with
  | nil => intro g _; exact Nat.le_refl _
  | cons op rest ih =>
    intro g hops
    rw [runStateOps, List.foldl_cons]
    have hstep : visitCountOf g sid ≤ visitCountOf (applyStateOp op g) sid := by
      cases op with
      | incr ids ts => exact incrementStateVisits_mono ids ts g sid
      | upd uid st ts =>
        have huid : uid ≠ sid := by
          have h1 := hops _ (List.mem_cons_self _ _)
          simpa [StateOp.targetsUpd] using h1
        exact le_of_eq (updateStateStatus_other uid st ts g sid huid).symm
    have hrest := ih (applyStateOp op g)
      (fun o ho => hops o (List.mem_cons_of_mem _ ho))
    exact le_trans hstep hrest

/-- C8 (amended): across every interleaving of `increment_state_visits`
and `update_state_status`, a state's `visit_count` is monotone
non-decreasing as long as **no `update_state_status` call targets it**
(the code resets the counters on every status update, even one that keeps
the status `'active'`); and every `update_state_status` call — in
particular any transition out of `'active'` — sets the target's
`visit_count` to 0 and `last_visited` to 0. -/
theorem C8_visit_monotonicity (ops : List StateOp) (g : GraphState) (sid : String)
    (hops : ∀ op ∈ ops, op.targetsUpd sid = false) :
    visitCountOf g sid ≤ visitCountOf (runStateOps ops g) sid
    ∧ (∀ (newStatus : String) (ts : Int) (g' : GraphState),
        visitCountOf (updateStateStatus sid newStatus ts g').1 sid = 0
        ∧ lastVisitedOf (updateStateStatus sid newStatus ts g').1 sid = 0) :=
  ⟨runStateOps_mono sid ops g hops,
   fun newStatus ts g' => updateStateStatus_resets newStatus ts g' sid⟩

/-- The boredom-interleaving counterexample graph: one active task. -/
def c8g0 : GraphState := [⟨"s1", "task", "demo", "active", 0, 0, 0, 0⟩]

/-- C8 counterexample: after `increment_state_visits(["s1"])` followed by
`update_state_status("s1", "active")`, the status was `'active'` at every
point of the interleaving, yet `visit_count` drops from 1 back to 0 — the
monotonicity as stated (\"while its status remains active\") fails. -/
theorem C8_counterexample :
    statusOf c8g0 "s1" = "active"
    ∧ statusOf (runStateOps [.incr ["s1"] 1] c8g0) "s1" = "active"
    ∧ statusOf (runStateOps [.incr ["s1"] 1, .upd "s1" "active" 2] c8g0) "s1" = "active"
    ∧ visitCountOf (runStateOps [.incr ["s1"] 1] c8g0) "s1" = 1
    ∧ visitCountOf (runStateOps [.incr ["s1"] 1, .upd "s1" "active" 2] c8g0) "s1" = 0
    ∧ ¬(visitCountOf (runStateOps [.incr ["s1"] 1] c8g0) "s1"
        ≤ visitCountOf (runStateOps [.incr ["s1"] 1, .upd "s1" "active" 2] c8g0) "s1") := by
  refine ⟨rfl, rfl, rfl, rfl, rfl, by decide⟩

/-- Witness for C8's amended theorem: two increments on `s1` with no
status update targeting it. -/
theorem C8_visit_monotonicity_witness :
    visitCountOf c8g0 "s1"
      ≤ visitCountOf (runStateOps [.incr ["s1"] 1, .incr ["s1"] 2] c8g0) "s1"
    ∧ (∀ (newStatus : String) (ts : Int) (g' : GraphState),
        visitCountOf (updateStateStatus "s1" newStatus ts g').1 "s1" = 0
        ∧ lastVisitedOf (updateStateStatus "s1" newStatus ts g').1 "s1" = 0) :=
  C8_visit_monotonicity [.incr ["s1"] 1, .incr ["s1"] 2] c8g0 "s1"
    (by intro op hop; fin_cases hop <;> rfl)

/-! ## Claim C9 — extraction parse fallbacks and validation normalisation -/

theorem find_append_or {α : Type} (p : α → Bool) (l1 l2 : List α) :
    (l1 ++ l2).find? p =
      match l1.find? p with
      | some x => some x
      | none => l2.find? p := by
  induction l1 with
  | nil => rfl
  | cons q rest ih =>
    by_cases hq : p q
    · rw [List.cons_append, List.find?_cons_of_pos _ hq, List.find?_cons_of_pos _ hq]
    · rw [List.cons_append, List.find?_cons_of_neg _ hq, List.find?_cons_of_neg _ hq, ih]

theorem find_map_set_self (k : String) (v : Json) (kvs : List (String × Json))
    (h : objHasKey kvs k = true) :
    (kvs.map (fun p => if p.1 = k then (k, v) else p)).find? (fun p => p.1 = k)
      = some (k, v) := by
  induction kvs with
  | nil => simp [objHasKey] at h
  | cons q rest ih =>
    by_cases hq : q.1 = k
    · rw [List.map_cons, List.find?_cons_of_pos _ (by simp [hq])]
      simp [hq]
    · rw [List.map_cons, List.find?_cons_of_neg _ (by simp [hq])]
      exact ih (by simpa [objHasKey, hq] using h)

theorem find_append_single (k : String) (v : Json) (kvs : List (String × Json))
    (h : objHasKey kvs k = false) :
    (kvs ++ [(k, v)]).find? (fun p => p.1 = k) = some (k, v) := by
  induction kvs with
  | nil => simp
  | cons q rest ih =>
    have h2 : ¬(q.1 = k) ∧ objHasKey rest k = false := by
      simpa [objHasKey] using h
    rw [List.cons_append, List.find?_cons_of_neg _ (by simp [h2.1])]
    exact ih h2.2

theorem objGet_objSet_self (kvs : List (String × Json)) (k : String) (v : Json) :
    objGet (objSet kvs k v) k = v := by
  rw [objGet, objSet]
  by_cases h : objHasKey kvs k
  · rw [if_pos h, find_map_set_self k v kvs h]
    rfl
  · rw [if_neg h, find_append_single k v kvs (Bool.eq_false_iff.mpr h)]
    rfl

theorem find_map_set_ne (k sk : String) (v : Json) (hne : sk ≠ k)
    (kvs : List (String × Json)) :
    (kvs.map (fun p => if p.1 = sk then (sk, v) else p)).find? (fun p => p.1 = k)
      = kvs.find? (fun p => p.1 = k) := by
  induction kvs with
  | nil => rfl
  | cons q rest ih =>
    by_cases hq : q.1 = k
    · have hqs : ¬(q.1 = sk) := by rw [hq]; exact fun hc => hne hc.symm
      rw [List.map_cons, List.find?_cons_of_pos _ (by rw [if_neg hqs]; simp [hq]),
        List.find?_cons_of_pos _ (by simp [hq])]
      rw [if_neg hqs]
    · by_cases hqs : q.1 = sk
      · rw [List.map_cons, List.find?_cons_of_neg _ (by rw [if_pos hqs]; simpa using hne),
          List.find?_cons_of_neg _ (by simp [hq])]
        exact ih
      · rw [List.map_cons, List.find?_cons_of_neg _ (by rw [if_neg hqs]; simp [hq]),
          List.find?_cons_of_neg _ (by simp [hq])]
        exact ih

theorem objGet_objSet_ne (kvs : List (String × Json)) (sk k : String) (v : Json)
    (hne : sk ≠ k) :
    objGet (objSet kvs sk v) k = objGet kvs k := by
  rw [objGet, objGet, objSet]
  by_cases h : objHasKey kvs sk
  · rw [if_pos h, find_map_set_ne k sk v hne kvs]
  · rw [if_neg h, find_append_or]
    cases hf : kvs.find? (fun p => p.1 = k) with
    | some q => rfl
    | none =>
      rw [List.find?_cons_of_neg _ (by simp [hne]), List.find?_nil]

theorem objSetdefault_present (kvs : List (String × Json)) (k : String) (v : Json)
    (h : objHasKey kvs k = true) : objSetdefault kvs k v = kvs := by
  rw [objSetdefault, if_pos h]

theorem objGet_objSetdefault_absent (kvs : List (String × Json)) (k : String) (v : Json)
    (h : objHasKey kvs k = false) : objGet (objSetdefault kvs k v) k = v := by
  rw [objSetdefault, if_neg (by simp [h]), objGet, find_append_single k v kvs h]
  rfl

theorem objGet_objSetdefault_ne (kvs : List (String × Json)) (sk k : String) (v : Json)
    (hne : sk ≠ k) :
    objGet (objSetdefault kvs sk v) k = objGet kvs k := by
  rw [objSetdefault]
  by_cases h : objHasKey kvs sk
  · rw [if_pos h]
  · rw [if_neg h, objGet, objGet, find_append_or]
    cases hf : kvs.find? (fun p => p.1 = k) with
    | some q => rfl
    | none =>
      rw [List.find?_cons_of_neg _ (by simp [hne]), List.find?_nil]

theorem objHasKey_objSetdefault_ne (kvs : List (String × Json)) (sk k : String)
    (v : Json) (hne : sk ≠ k) :
    objHasKey (objSetdefault kvs sk v) k = objHasKey kvs k := by
  rw [objSetdefault]
  by_cases h : objHasKey kvs sk
  · rw [if_pos h]
  · rw [if_neg h, objHasKey, objHasKey, List.any_append]
    simp [hne]

theorem entNorm_get_name (kvs : List (String × Json)) :
    objGet (entNorm kvs) "name" = .str (pyStr (objGet kvs "name")) := by
  rw [entNorm, objGet_objSet_ne _ _ _ _ (by decide), entNorm4,
    objGet_objSet_ne _ _ _ _ (by decide), entNorm3, objGet_objSet_self, entNorm2,
    objGet_objSetdefault_ne _ _ _ _ (by decide), entNorm1,
    objGet_objSetdefault_ne _ _ _ _ (by decide)]

theorem entNorm_get_subtype (kvs : List (String × Json)) :
    objGet (entNorm kvs) "subtype" = .str (pyStr (objGet (entNorm3 kvs) "subtype")) := by
  rw [entNorm, objGet_objSet_ne _ _ _ _ (by decide), entNorm4, objGet_objSet_self]

theorem entNorm_get_desc (kvs : List (String × Json)) :
    objGet (entNorm kvs) "description"
      = .str (pyStr (objGet (entNorm4 kvs) "description")) := by
  rw [entNorm, objGet_objSet_self]

theorem entNorm_subtype_default (kvs : List (String × Json))
    (h : objHasKey kvs "subtype" = false) :
    objGet (entNorm kvs) "subtype" = .str "Entity" := by
  rw [entNorm_get_subtype, entNorm3, objGet_objSet_ne _ _ _ _ (by decide), entNorm2,
    objGet_objSetdefault_ne _ _ _ _ (by decide), entNorm1,
    objGet_objSetdefault_absent _ _ _ h]
  rfl

theorem evNorm_get_of_ne (kvs : List (String × Json)) (k : String)
    (hne : ("caused_by" : String) ≠ k) :
    objGet (evNorm kvs) k = objGet (evNorm7 kvs) k := by
  rw [evNorm]
  cases hm : objGet (evNorm7 kvs) "caused_by"
  case arr xs => rfl
  all_goals exact objGet_objSet_ne _ _ _ _ hne

theorem evNorm_get_name (kvs : List (String × Json)) :
    objGet (evNorm kvs) "name" = .str (pyStr (objGet kvs "name")) := by
  rw [evNorm_get_of_ne _ _ (by decide), evNorm7,
    objGet_objSet_ne _ _ _ _ (by decide), evNorm6,
    objGet_objSet_ne _ _ _ _ (by decide), evNorm5, objGet_objSet_self, evNorm4,
    objGet_objSetdefault_ne _ _ _ _ (by decide), evNorm3,
    objGet_objSetdefault_ne _ _ _ _ (by decide), evNorm2,
    objGet_objSetdefault_ne _ _ _ _ (by decide), evNorm1,
    objGet_objSetdefault_ne _ _ _ _ (by decide)]

theorem evNorm_get_subtype (kvs : List (String × Json)) :
    objGet (evNorm kvs) "subtype" = .str (pyStr (objGet (evNorm5 kvs) "subtype")) := by
  rw [evNorm_get_of_ne _ _ (by decide), evNorm7,
    objGet_objSet_ne _ _ _ _ (by decide), evNorm6, objGet_objSet_self]

theorem evNorm_get_desc (kvs : List (String × Json)) :
    objGet (evNorm kvs) "description"
      = .str (pyStr (objGet (evNorm6 kvs) "description")) := by
  rw [evNorm_get_of_ne _ _ (by decide), evNorm7, objGet_objSet_self]

theorem evNorm_subtype_default (kvs : List (String × Json))
    (h : objHasKey kvs "subtype" = false) :
    objGet (evNorm kvs) "subtype" = .str "Event" := by
  rw [evNorm_get_subtype, evNorm5, objGet_objSet_ne _ _ _ _ (by decide), evNorm4,
    objGet_objSetdefault_ne _ _ _ _ (by decide), evNorm3,
    objGet_objSetdefault_ne _ _ _ _ (by decide), evNorm2,
    objGet_objSetdefault_ne _ _ _ _ (by decide), evNorm1,
    objGet_objSetdefault_absent _ _ _ h]
  rfl

theorem evNorm7_get_causedBy (kvs : List (String × Json)) :
    objGet (evNorm7 kvs) "caused_by" = objGet (evNorm3 kvs) "caused_by" := by
  rw [evNorm7, objGet_objSet_ne _ _ _ _ (by decide), evNorm6,
    objGet_objSet_ne _ _ _ _ (by decide), evNorm5,
    objGet_objSet_ne _ _ _ _ (by decide), evNorm4,
    objGet_objSetdefault_ne _ _ _ _ (by decide)]

theorem evNorm_causedBy_arr (kvs : List (String × Json)) :
    ∃ bs, objGet (evNorm kvs) "caused_by" = .arr bs := by
  rw [evNorm]
  cases hm : objGet (evNorm7 kvs) "caused_by"
  case arr xs => exact ⟨xs, hm⟩
  all_goals exact ⟨[], objGet_objSet_self _ _ _⟩

theorem evNorm_causedBy_nonlist (kvs : List (String × Json))
    (hk : objHasKey kvs "caused_by" = true)
    (hnl : ∀ xs, objGet kvs "caused_by" ≠ .arr xs) :
    objGet (evNorm kvs) "caused_by" = .arr [] := by
  have hk2 : objHasKey (evNorm2 kvs) "caused_by" = true := by
    rw [evNorm2, objHasKey_objSetdefault_ne _ _ _ _ (by decide), evNorm1,
      objHasKey_objSetdefault_ne _ _ _ _ (by decide)]
    exact hk
  have h7 : objGet (evNorm7 kvs) "caused_by" = objGet kvs "caused_by" := by
    rw [evNorm7_get_causedBy, evNorm3, objSetdefault_present _ _ _ hk2, evNorm2,
      objGet_objSetdefault_ne _ _ _ _ (by decide), evNorm1,
      objGet_objSetdefault_ne _ _ _ _ (by decide)]
  rw [evNorm]
  cases hm : objGet (evNorm7 kvs) "caused_by"
  case arr xs => exact absurd (h7.symm.trans hm) (hnl xs)
  all_goals exact objGet_objSet_self _ _ _

theorem validEntity_none_iff (j : Json) :
    validEntity j = none ↔ ∀ kvs, j = .obj kvs → objHasKey kvs "name" = false := by
  cases j
  case obj kvs =>
    rw [validEntity]
    by_cases h : objHasKey kvs "name"
    · rw [if_pos h]
      constructor
      · intro hc; cases hc
      · intro hall
        rw [hall kvs rfl] at h
        cases h
    · rw [if_neg h]
      refine ⟨fun _ kvs2 heq => ?_, fun _ => rfl⟩
      cases heq
      exact Bool.eq_false_iff.mpr h
  all_goals exact ⟨fun _ kvs heq => (nomatch heq), fun _ => rfl⟩

theorem validEvent_none_iff (j : Json) :
    validEvent j = none ↔ ∀ kvs, j = .obj kvs → objHasKey kvs "name" = false := by
  cases j
  case obj kvs =>
    rw [validEvent]
    by_cases h : objHasKey kvs "name"
    · rw [if_pos h]
      constructor
      · intro hc; cases hc
      · intro hall
        rw [hall kvs rfl] at h
        cases h
    · rw [if_neg h]
      refine ⟨fun _ kvs2 heq => ?_, fun _ => rfl⟩
      cases heq
      exact Bool.eq_false_iff.mpr h
  all_goals exact ⟨fun _ kvs heq => (nomatch heq), fun _ => rfl⟩

theorem validateExtraction_obj (kvs : List (String × Json)) (es evs : List Json)
    (hke : objHasKey kvs "entities" = true) (hkv : objHasKey kvs "events" = true)
    (hes : objGet kvs "entities" = .arr es) (hev : objGet kvs "events" = .arr evs) :
    validateExtraction (.obj kvs)
      = .ok (.obj (objSet (objSet kvs "entities" (.arr (es.filterMap validEntity)))
          "events" (.arr (evs.filterMap validEvent)))) := by
  rw [validateExtraction]
  simp only [if_pos hke, if_pos hkv, hes, pyIterItems,
    objGet_objSet_ne _ _ _ _ (show ("entities" : String) ≠ "events" by decide), hev]

theorem parseFallback (jl : String → Option Json) (cf : String → String) (r : String)
    (h1 : jl (pyStrip r) = none)
    (h2 : containsSub (pyStrip r) "```" = true → jl (pyStrip (cf (pyStrip r))) = none)
    (h3 : ∀ sub, braceSpan (pyStrip r) = some sub → jl sub = none) :
    parseJsonResponse jl cf r = emptyExtraction := by
  unfold parseJsonResponse
  simp only [h1]
  cases hb : braceSpan (pyStrip r) with
  | none =>
    by_cases hf : containsSub (pyStrip r) "```"
    · simp only [if_pos hf, h2 hf, ite_self]
    · simp only [if_neg hf, ite_self]
  | some sub =>
    by_cases hf : containsSub (pyStrip r) "```"
    · simp only [if_pos hf, h2 hf, h3 sub hb, ite_self]
    · simp only [if_neg hf, h3 sub hb, ite_self]

/-- C9: when every parse strategy fails (raw `json.loads`, fence-cleaned
`json.loads`, first-brace-span `json.loads`), `_parse_json_response`
returns the empty extraction `{"entities": [], "events": []}` and
validating that result succeeds with the same value (no exception
escapes); and `_validate_extraction` (i) drops exactly the items that are
not dicts containing a `"name"` key, (ii) coerces `name`, `subtype` and
`description` to strings, (iii) defaults a missing `subtype` to
`"Entity"` for entities and `"Event"` for events, (iv) leaves
`caused_by` a list — replacing a present non-list value with `[]` — and
(v) filters the `entities`/`events` arrays elementwise. -/
theorem C9_parse_and_validate :
    (∀ (jsonLoads : String → Option Json) (cleanFences : String → String)
        (response : String),
        jsonLoads (pyStrip response) = none →
        (containsSub (pyStrip response) "```" = true →
          jsonLoads (pyStrip (cleanFences (pyStrip response))) = none) →
        (∀ sub, braceSpan (pyStrip response) = some sub → jsonLoads sub = none) →
        parseJsonResponse jsonLoads cleanFences response = emptyExtraction
        ∧ validateExtraction (parseJsonResponse jsonLoads cleanFences response)
            = .ok emptyExtraction)
    ∧ (∀ j, validEntity j = none ↔ ∀ kvs, j = .obj kvs → objHasKey kvs "name" = false)
    ∧ (∀ j, validEvent j = none ↔ ∀ kvs, j = .obj kvs → objHasKey kvs "name" = false)
    ∧ (∀ kvs, objHasKey kvs "name" = true →
        validEntity (.obj kvs) = some (.obj (entNorm kvs))
        ∧ objGet (entNorm kvs) "name" = .str (pyStr (objGet kvs "name"))
        ∧ (∃ ss, objGet (entNorm kvs) "subtype" = .str ss)
        ∧ (∃ ds, objGet (entNorm kvs) "description" = .str ds)
        ∧ (objHasKey kvs "subtype" = false →
            objGet (entNorm kvs) "subtype" = .str "Entity"))
    ∧ (∀ kvs, objHasKey kvs "name" = true →
        validEvent (.obj kvs) = some (.obj (evNorm kvs))
        ∧ objGet (evNorm kvs) "name" = .str (pyStr (objGet kvs "name"))
        ∧ (∃ ss, objGet (evNorm kvs) "subtype" = .str ss)
        ∧ (∃ ds, objGet (evNorm kvs) "description" = .str ds)
        ∧ (objHasKey kvs "subtype" = false →
            objGet (evNorm kvs) "subtype" = .str "Event")
        ∧ (∃ bs, objGet (evNorm kvs) "caused_by" = .arr bs)
        ∧ (objHasKey kvs "caused_by" = true →
            (∀ xs, objGet kvs "caused_by" ≠ .arr xs) →
            objGet (evNorm kvs) "caused_by" = .arr []))
    ∧ (∀ kvs es evs,
        objHasKey kvs "entities" = true → objHasKey kvs "events" = true →
        objGet kvs "entities" = .arr es → objGet kvs "events" = .arr evs →
        validateExtraction (.obj kvs)
          = .ok (.obj (objSet (objSet kvs "entities"
              (.arr (es.filterMap validEntity)))
              "events" (.arr (evs.filterMap validEvent))))) := by
  refine ⟨?_, validEntity_none_iff, validEvent_none_iff, ?_, ?_, ?_⟩
  · intro jl cf r h1 h2 h3
    have hmain := parseFallback jl cf r h1 h2 h3
    refine ⟨hmain, ?_⟩
    rw [hmain]
    rfl
  · intro kvs h
    exact ⟨by rw [validEntity, if_pos h], entNorm_get_name kvs,
      ⟨_, entNorm_get_subtype kvs⟩, ⟨_, entNorm_get_desc kvs⟩,
      fun hd => entNorm_subtype_default kvs hd⟩
  · intro kvs h
    exact ⟨by rw [validEvent, if_pos h], evNorm_get_name kvs,
      ⟨_, evNorm_get_subtype kvs⟩, ⟨_, evNorm_get_desc kvs⟩,
      fun hd => evNorm_subtype_default kvs hd,
      evNorm_causedBy_arr kvs,
      fun hk hnl => evNorm_causedBy_nonlist kvs hk hnl⟩
  · intro kvs es evs hke hkv hes hev
    exact validateExtraction_obj kvs es evs hke hkv hes hev

/-- Witness for C9: a decoder that rejects everything (pure markdown
prose) drives the cascade to the empty extraction. -/
theorem C9_parse_and_validate_witness :
    parseJsonResponse (fun _ => none) (fun s => s)
      "# Analysis: the model returned prose" = emptyExtraction :=
  (C9_parse_and_validate.1 (fun _ => none) (fun s => s)
    "# Analysis: the model returned prose" rfl (fun _ => rfl) (fun _ _ => rfl)).1
